import Mathlib

/-!
# dqrng: the exported entry points of `src/RcppExports.cpp`

A shallow embedding of the generated binding layer of the package: the
`_dqrng_*_try` functions, the exported `_dqrng_*` wrappers around them, the
signature validator, the registration of the C callables and the routine
table.

Conventions of the embedding.

* A host value (`SEXP`) is a record of what the binding layer can observe of
  it: its class attribute, the text `Rf_asChar` reads from it, whether Rcpp
  recognises it as a longjump sentinel, and an identity for everything else.
* A C++ function that can throw returns `Except Thrown α`; the engine and the
  host are a state `σ` that is passed explicitly.
* A wrapper yields the list of host-visible actions it performs, in order
  (`Event`).  Control leaves the wrapper either through `Event.ret` or through
  a host call that does not come back; a trace that does not end in
  `Event.ret` is one of the latter.
* The functions of the host and of Rcpp that the file calls but does not
  define are parameters (`Host`, `Rcpp`), and so are the functions of the
  package that it only declares (`Core`).
-/

namespace Dqrng

/-! ## Host values and host calls -/

/-- A host value, as far as the binding layer looks at it. -/
structure SEXP where
  /-- The class attribute. -/
  classes : List String
  /-- The text that `CHAR(Rf_asChar(x))` yields. -/
  chars : String
  /-- The answer of `Rcpp::internal::isLongjumpSentinel(x)`. -/
  sentinel : Bool
  /-- Identity of the remaining content. -/
  ref : Nat
  deriving DecidableEq, Repr

/-- The host's `NULL`. -/
def R_NilValue : SEXP := { classes := [], chars := "", sentinel := false, ref := 0 }

/-- Host API `Rf_inherits(x, name)`: the class attribute of `x` has `name`. -/
def Rf_inherits (x : SEXP) (name : String) : Bool := x.classes.contains name

/-- Rcpp API `Rcpp::internal::isLongjumpSentinel(x)`. -/
def isLongjumpSentinel (x : SEXP) : Bool := x.sentinel

/-- Host API `CHAR(Rf_asChar(x))`. -/
def Rf_asChar (x : SEXP) : String := x.chars

/-- What a C++ body between `BEGIN_RCPP` and `END_RCPP...` can throw. -/
inductive Thrown where
  /-- The exception `Rcpp::internal::InterruptedException`. -/
  | interrupted
  /-- The exception `Rcpp::LongjumpException`, with its token. -/
  | longjump (token : SEXP)
  /-- A `std::exception`, with its `what()`. -/
  | exception (what : String)
  /-- Anything else (`catch (...)`). -/
  | other
  deriving DecidableEq, Repr

/-- The functions of this file whose address is taken (`DL_FUNC`). -/
inductive DL_FUNC where
  | _dqrng_dqset_seed_try
  | _dqrng_dqRNGkind_try
  | _dqrng_dqrunif_try
  | _dqrng_runif_try
  | _dqrng_dqrnorm_try
  | _dqrng_rnorm_try
  | _dqrng_dqrexp_try
  | _dqrng_rexp_try
  | _dqrng_dqrrademacher_try
  | _dqrng_dqsample_int_try
  | _dqrng_dqsample_num_try
  | _dqrng_RcppExport_validate
  | _dqrng_dqset_seed
  | _dqrng_dqRNGkind
  | _dqrng_dqrunif
  | _dqrng_runif
  | _dqrng_dqrnorm
  | _dqrng_rnorm
  | _dqrng_dqrexp
  | _dqrng_rexp
  | _dqrng_dqrrademacher
  | _dqrng_dqsample_int
  | _dqrng_dqsample_num
  | _dqrng_generateSeedVectors
  | _dqrng_RcppExport_registerCCallable
  deriving DecidableEq, Repr

/-- The host-visible actions of the binding layer. -/
inductive Event where
  | PROTECT (x : SEXP)
  | UNPROTECT (n : Nat)
  | Rf_onintr
  | resumeJump (token : SEXP)
  | Rf_error (msg : String)
  /-- Raising a condition through `stop(...)`, as `END_RCPP` does. -/
  | stop (msg : String)
  /-- Construction of an `Rcpp::RNGScope`: the host RNG state is read in. -/
  | enterRNGScope
  /-- Destruction of an `Rcpp::RNGScope`: the host RNG state is written back. -/
  | exitRNGScope
  | R_RegisterCCallable (package name : String) (fptr : DL_FUNC)
  /-- The function returns `x` to its caller. -/
  | ret (x : SEXP)
  deriving DecidableEq, Repr

/-- The host, as a parameter: whether each of the three calls through which a
wrapper hands control to the host comes back to the wrapper, and what entering
and leaving an `Rcpp::RNGScope` does to the state. The source of a wrapper
does not end a path at any of these calls itself: after each of them the next
statement of the wrapper follows. (The host declares `Rf_error` as a function
that does not return; `Rf_onintr` is an ordinary `void` function, which comes
back to its caller for instance while interrupts are suspended.) -/
structure Host (σ : Type) where
  onintrReturns : Bool
  resumeJumpReturns : Bool
  errorReturns : Bool
  enterRNGScope : σ → σ
  exitRNGScope : σ → σ

/-- The conversions of Rcpp between host values and C++ values
(`Rcpp::traits::input_parameter<T>`, `Rcpp::wrap`) and the values its
`END_RCPP_RETURN_ERROR` makes of a caught exception, as parameters. `D` stands
for the C type `double`. -/
structure Rcpp (D : Type) where
  as_int : SEXP → Except Thrown Int
  as_size_t : SEXP → Except Thrown Nat
  as_double : SEXP → Except Thrown D
  as_bool : SEXP → Except Thrown Bool
  as_string : SEXP → Except Thrown String
  as_Nullable_IntegerVector : SEXP → Except Thrown (Option (List Int))
  as_Nullable_NumericVector : SEXP → Except Thrown (Option (List D))
  wrap_double : D → SEXP
  wrap_NumericVector : List D → SEXP
  wrap_IntegerVector : List Int → SEXP
  wrap_List : List SEXP → SEXP
  interruptedError : SEXP
  exception_to_try_error : String → SEXP
  string_to_try_error : String → SEXP

/-- The functions of the package that this file declares and calls, as
parameters: each takes the converted arguments and the state, and either
returns a value or throws, leaving a state behind in both cases. -/
structure Core (σ D : Type) where
  dqset_seed : Option (List Int) → Option (List Int) → σ → Except Thrown Unit × σ
  dqRNGkind : String → String → σ → Except Thrown Unit × σ
  dqrunif : Nat → D → D → σ → Except Thrown (List D) × σ
  runif : D → D → σ → Except Thrown D × σ
  dqrnorm : Nat → D → D → σ → Except Thrown (List D) × σ
  rnorm : D → D → σ → Except Thrown D × σ
  dqrexp : Nat → D → σ → Except Thrown (List D) × σ
  rexp : D → σ → Except Thrown D × σ
  dqrrademacher : Nat → σ → Except Thrown (List Int) × σ
  dqsample_int : Int → Int → Bool → Option (List D) → Int → σ → Except Thrown (List Int) × σ
  dqsample_num : D → D → Bool → Option (List D) → Int → σ → Except Thrown (List D) × σ
  generateSeedVectors : Int → Int → σ → Except Thrown (List SEXP) × σ

/-- A C++ body that may throw and that acts on the state. -/
abbrev Body (σ α : Type) := σ → Except Thrown α × σ

/-- Converting one argument, then going on with the converted value; a
conversion that throws ends the body and leaves the state as it is. The
arguments are converted in the order the source declares them; nothing proved
below depends on which of two failing conversions is the one reported. -/
def Body.arg {σ α β : Type} (c : Except Thrown α) (k : α → Body σ β) : Body σ β :=
  fun s =>
    match c with
    | .ok a => k a s
    | .error e => (.error e, s)

/-- Calling a function of the package and wrapping what it returns. -/
def Body.call {σ α : Type} (f : Body σ α) (wrap : α → SEXP) : Body σ SEXP :=
  fun s =>
    match f s with
    | (.ok a, s1) => (.ok (wrap a), s1)
    | (.error e, s1) => (.error e, s1)

/-- The value `END_RCPP_RETURN_ERROR` makes a `_try` function return: the
value of the body, or the object that stands for what the body threw. -/
def END_RCPP_RETURN_ERROR {D : Type} (rc : Rcpp D) : Except Thrown SEXP → SEXP
  | .ok v => v
  | .error .interrupted => rc.interruptedError
  | .error (.longjump token) => token
  | .error (.exception what) => rc.exception_to_try_error what
  | .error .other => rc.string_to_try_error "c++ exception (unknown reason)"

/-- A body between `BEGIN_RCPP` and `END_RCPP_RETURN_ERROR`. -/
def tryBody {σ D : Type} (rc : Rcpp D) (b : Body σ SEXP) (s : σ) : SEXP × σ :=
  (END_RCPP_RETURN_ERROR rc (b s).1, (b s).2)

def _dqrng_dqset_seed_try {σ D : Type} (rc : Rcpp D) (core : Core σ D)
    (seedSEXP streamSEXP : SEXP) : σ → SEXP × σ :=
  tryBody rc <|
    Body.arg (rc.as_Nullable_IntegerVector seedSEXP) fun seed =>
    Body.arg (rc.as_Nullable_IntegerVector streamSEXP) fun stream =>
    Body.call (core.dqset_seed seed stream) fun _ => R_NilValue

def _dqrng_dqRNGkind_try {σ D : Type} (rc : Rcpp D) (core : Core σ D)
    (kindSEXP normal_kindSEXP : SEXP) : σ → SEXP × σ :=
  tryBody rc <|
    Body.arg (rc.as_string kindSEXP) fun kind =>
    Body.arg (rc.as_string normal_kindSEXP) fun normal_kind =>
    Body.call (core.dqRNGkind kind normal_kind) fun _ => R_NilValue

def _dqrng_dqrunif_try {σ D : Type} (rc : Rcpp D) (core : Core σ D)
    (nSEXP minSEXP maxSEXP : SEXP) : σ → SEXP × σ :=
  tryBody rc <|
    Body.arg (rc.as_size_t nSEXP) fun n =>
    Body.arg (rc.as_double minSEXP) fun min =>
    Body.arg (rc.as_double maxSEXP) fun max =>
    Body.call (core.dqrunif n min max) rc.wrap_NumericVector

def _dqrng_runif_try {σ D : Type} (rc : Rcpp D) (core : Core σ D)
    (minSEXP maxSEXP : SEXP) : σ → SEXP × σ :=
  tryBody rc <|
    Body.arg (rc.as_double minSEXP) fun min =>
    Body.arg (rc.as_double maxSEXP) fun max =>
    Body.call (core.runif min max) rc.wrap_double

def _dqrng_dqrnorm_try {σ D : Type} (rc : Rcpp D) (core : Core σ D)
    (nSEXP meanSEXP sdSEXP : SEXP) : σ → SEXP × σ :=
  tryBody rc <|
    Body.arg (rc.as_size_t nSEXP) fun n =>
    Body.arg (rc.as_double meanSEXP) fun mean =>
    Body.arg (rc.as_double sdSEXP) fun sd =>
    Body.call (core.dqrnorm n mean sd) rc.wrap_NumericVector

def _dqrng_rnorm_try {σ D : Type} (rc : Rcpp D) (core : Core σ D)
    (meanSEXP sdSEXP : SEXP) : σ → SEXP × σ :=
  tryBody rc <|
    Body.arg (rc.as_double meanSEXP) fun mean =>
    Body.arg (rc.as_double sdSEXP) fun sd =>
    Body.call (core.rnorm mean sd) rc.wrap_double

def _dqrng_dqrexp_try {σ D : Type} (rc : Rcpp D) (core : Core σ D)
    (nSEXP rateSEXP : SEXP) : σ → SEXP × σ :=
  tryBody rc <|
    Body.arg (rc.as_size_t nSEXP) fun n =>
    Body.arg (rc.as_double rateSEXP) fun rate =>
    Body.call (core.dqrexp n rate) rc.wrap_NumericVector

def _dqrng_rexp_try {σ D : Type} (rc : Rcpp D) (core : Core σ D)
    (rateSEXP : SEXP) : σ → SEXP × σ :=
  tryBody rc <|
    Body.arg (rc.as_double rateSEXP) fun rate =>
    Body.call (core.rexp rate) rc.wrap_double

def _dqrng_dqrrademacher_try {σ D : Type} (rc : Rcpp D) (core : Core σ D)
    (nSEXP : SEXP) : σ → SEXP × σ :=
  tryBody rc <|
    Body.arg (rc.as_size_t nSEXP) fun n =>
    Body.call (core.dqrrademacher n) rc.wrap_IntegerVector

def _dqrng_dqsample_int_try {σ D : Type} (rc : Rcpp D) (core : Core σ D)
    (mSEXP nSEXP replaceSEXP probsSEXP offsetSEXP : SEXP) : σ → SEXP × σ :=
  tryBody rc <|
    Body.arg (rc.as_int mSEXP) fun m =>
    Body.arg (rc.as_int nSEXP) fun n =>
    Body.arg (rc.as_bool replaceSEXP) fun replace =>
    Body.arg (rc.as_Nullable_NumericVector probsSEXP) fun probs =>
    Body.arg (rc.as_int offsetSEXP) fun offset =>
    Body.call (core.dqsample_int m n replace probs offset) rc.wrap_IntegerVector

def _dqrng_dqsample_num_try {σ D : Type} (rc : Rcpp D) (core : Core σ D)
    (mSEXP nSEXP replaceSEXP probsSEXP offsetSEXP : SEXP) : σ → SEXP × σ :=
  tryBody rc <|
    Body.arg (rc.as_double mSEXP) fun m =>
    Body.arg (rc.as_double nSEXP) fun n =>
    Body.arg (rc.as_bool replaceSEXP) fun replace =>
    Body.arg (rc.as_Nullable_NumericVector probsSEXP) fun probs =>
    Body.arg (rc.as_int offsetSEXP) fun offset =>
    Body.call (core.dqsample_num m n replace probs offset) rc.wrap_NumericVector

/-! ## The exported wrappers -/

/-- Lines 40 to 47 of the pattern: the check for `"try-error"`, then the
ordinary return. -/
def afterLongjumpCheck {σ : Type} (h : Host σ) (rcpp_result_gen : SEXP) : List Event :=
  if Rf_inherits rcpp_result_gen "try-error" then
    Event.UNPROTECT 1 :: Event.Rf_error (Rf_asChar rcpp_result_gen) ::
      (if h.errorReturns then [Event.UNPROTECT 1, Event.ret rcpp_result_gen] else [])
  else
    [Event.UNPROTECT 1, Event.ret rcpp_result_gen]

/-- Lines 36 to 39 of the pattern: the check for a longjump sentinel. -/
def afterInterruptCheck {σ : Type} (h : Host σ) (rcpp_result_gen : SEXP) : List Event :=
  if isLongjumpSentinel rcpp_result_gen then
    Event.resumeJump rcpp_result_gen ::
      (if h.resumeJumpReturns then afterLongjumpCheck h rcpp_result_gen else [])
  else
    afterLongjumpCheck h rcpp_result_gen

/-- What every wrapper of the try pattern does with the result of its `_try`
function (lines 29 to 47 of the first one): protect it, check for
`"interrupted-error"`, then go on with the two other checks. -/
def exportedBody {σ : Type} (h : Host σ) (rcpp_result_gen : SEXP) : List Event :=
  Event.PROTECT rcpp_result_gen ::
    (if Rf_inherits rcpp_result_gen "interrupted-error" then
      Event.UNPROTECT 1 :: Event.Rf_onintr ::
        (if h.onintrReturns then afterInterruptCheck h rcpp_result_gen else [])
    else
      afterInterruptCheck h rcpp_result_gen)

/-- A wrapper of the try pattern around the `_try` function `f`. -/
def exported {σ : Type} (h : Host σ) (f : σ → SEXP × σ) (s : σ) : List Event × σ :=
  (exportedBody h (f s).1, (f s).2)

def _dqrng_dqset_seed {σ D : Type} (h : Host σ) (rc : Rcpp D) (core : Core σ D)
    (seedSEXP streamSEXP : SEXP) : σ → List Event × σ :=
  exported h (_dqrng_dqset_seed_try rc core seedSEXP streamSEXP)

def _dqrng_dqRNGkind {σ D : Type} (h : Host σ) (rc : Rcpp D) (core : Core σ D)
    (kindSEXP normal_kindSEXP : SEXP) : σ → List Event × σ :=
  exported h (_dqrng_dqRNGkind_try rc core kindSEXP normal_kindSEXP)

def _dqrng_dqrunif {σ D : Type} (h : Host σ) (rc : Rcpp D) (core : Core σ D)
    (nSEXP minSEXP maxSEXP : SEXP) : σ → List Event × σ :=
  exported h (_dqrng_dqrunif_try rc core nSEXP minSEXP maxSEXP)

def _dqrng_runif {σ D : Type} (h : Host σ) (rc : Rcpp D) (core : Core σ D)
    (minSEXP maxSEXP : SEXP) : σ → List Event × σ :=
  exported h (_dqrng_runif_try rc core minSEXP maxSEXP)

def _dqrng_dqrnorm {σ D : Type} (h : Host σ) (rc : Rcpp D) (core : Core σ D)
    (nSEXP meanSEXP sdSEXP : SEXP) : σ → List Event × σ :=
  exported h (_dqrng_dqrnorm_try rc core nSEXP meanSEXP sdSEXP)

def _dqrng_rnorm {σ D : Type} (h : Host σ) (rc : Rcpp D) (core : Core σ D)
    (meanSEXP sdSEXP : SEXP) : σ → List Event × σ :=
  exported h (_dqrng_rnorm_try rc core meanSEXP sdSEXP)

def _dqrng_dqrexp {σ D : Type} (h : Host σ) (rc : Rcpp D) (core : Core σ D)
    (nSEXP rateSEXP : SEXP) : σ → List Event × σ :=
  exported h (_dqrng_dqrexp_try rc core nSEXP rateSEXP)

def _dqrng_rexp {σ D : Type} (h : Host σ) (rc : Rcpp D) (core : Core σ D)
    (rateSEXP : SEXP) : σ → List Event × σ :=
  exported h (_dqrng_rexp_try rc core rateSEXP)

def _dqrng_dqrrademacher {σ D : Type} (h : Host σ) (rc : Rcpp D) (core : Core σ D)
    (nSEXP : SEXP) : σ → List Event × σ :=
  exported h (_dqrng_dqrrademacher_try rc core nSEXP)

def _dqrng_dqsample_int {σ D : Type} (h : Host σ) (rc : Rcpp D) (core : Core σ D)
    (mSEXP nSEXP replaceSEXP probsSEXP offsetSEXP : SEXP) : σ → List Event × σ :=
  exported h (_dqrng_dqsample_int_try rc core mSEXP nSEXP replaceSEXP probsSEXP offsetSEXP)

def _dqrng_dqsample_num {σ D : Type} (h : Host σ) (rc : Rcpp D) (core : Core σ D)
    (mSEXP nSEXP replaceSEXP probsSEXP offsetSEXP : SEXP) : σ → List Event × σ :=
  exported h (_dqrng_dqsample_num_try rc core mSEXP nSEXP replaceSEXP probsSEXP offsetSEXP)

/-- What `END_RCPP` does with the outcome of the body of a wrapper that is
not of the try pattern: an interrupt goes to `Rf_onintr`, an exception is
raised as a condition through `stop`, a longjump is resumed; where the host
call comes back, and in the ordinary case, the function returns (the value of
the body, or `R_NilValue` after the catch clauses). -/
def END_RCPP {σ : Type} (h : Host σ) : Except Thrown SEXP → List Event
  | .ok v => [Event.ret v]
  | .error .interrupted =>
      Event.Rf_onintr :: (if h.onintrReturns then [Event.ret R_NilValue] else [])
  | .error (.longjump token) =>
      Event.resumeJump token :: (if h.resumeJumpReturns then [Event.ret R_NilValue] else [])
  | .error (.exception what) => [Event.stop what]
  | .error .other => [Event.stop "c++ exception (unknown reason)"]

/-- The wrapper of `generateSeedVectors` (lines 396 to 405): the body is
bracketed by an `Rcpp::RNGScope`, whose destructor runs when the body is left,
by a return or by an exception. -/
def _dqrng_generateSeedVectors {σ D : Type} (h : Host σ) (rc : Rcpp D) (core : Core σ D)
    (nseedsSEXP nwordsSEXP : SEXP) (s : σ) : List Event × σ :=
  let body : Body σ SEXP :=
    Body.arg (rc.as_int nseedsSEXP) fun nseeds =>
    Body.arg (rc.as_int nwordsSEXP) fun nwords =>
    Body.call (core.generateSeedVectors nseeds nwords) rc.wrap_List
  let r := body (h.enterRNGScope s)
  (Event.enterRNGScope :: Event.exitRNGScope :: END_RCPP h r.1, h.exitRNGScope r.2)

/-! ## Validation and registration -/

/-- The method `std::set<std::string>::insert`, on a set kept as a list
without repetition. -/
def setInsert (signatures : List String) (x : String) : List String :=
  if x ∈ signatures then signatures else signatures ++ [x]

/-- The function `_dqrng_RcppExport_validate` (lines 408 to 424). The static
local `signatures` is the state: the call returns the answer and the set it
leaves behind. -/
def _dqrng_RcppExport_validate (sig : String) (signatures : List String) : Int × List String :=
  let signatures :=
    if signatures.isEmpty then
      let signatures := setInsert signatures "void(*dqset_seed)(Rcpp::Nullable<Rcpp::IntegerVector>,Rcpp::Nullable<Rcpp::IntegerVector>)"
      let signatures := setInsert signatures "void(*dqRNGkind)(std::string,const std::string&)"
      let signatures := setInsert signatures "Rcpp::NumericVector(*dqrunif)(size_t,double,double)"
      let signatures := setInsert signatures "double(*runif)(double,double)"
      let signatures := setInsert signatures "Rcpp::NumericVector(*dqrnorm)(size_t,double,double)"
      let signatures := setInsert signatures "double(*rnorm)(double,double)"
      let signatures := setInsert signatures "Rcpp::NumericVector(*dqrexp)(size_t,double)"
      let signatures := setInsert signatures "double(*rexp)(double)"
      let signatures := setInsert signatures "Rcpp::IntegerVector(*dqrrademacher)(size_t)"
      let signatures := setInsert signatures "Rcpp::IntegerVector(*dqsample_int)(int,int,bool,Rcpp::Nullable<Rcpp::NumericVector>,int)"
      let signatures := setInsert signatures "Rcpp::NumericVector(*dqsample_num)(double,double,bool,Rcpp::Nullable<Rcpp::NumericVector>,int)"
      signatures
    else signatures
  (if sig ∈ signatures then 1 else 0, signatures)

/-- The static local `signatures` after the calls `sigs`, made in this order
from the start of the process, when it is empty. -/
def signaturesAfter (sigs : List String) : List String :=
  sigs.foldl (fun signatures sig => (_dqrng_RcppExport_validate sig signatures).2) []

/-- The function `_dqrng_RcppExport_registerCCallable` (lines 427 to 441). -/
def _dqrng_RcppExport_registerCCallable : List Event :=
  [ Event.R_RegisterCCallable "dqrng" "_dqrng_dqset_seed" DL_FUNC._dqrng_dqset_seed_try,
    Event.R_RegisterCCallable "dqrng" "_dqrng_dqRNGkind" DL_FUNC._dqrng_dqRNGkind_try,
    Event.R_RegisterCCallable "dqrng" "_dqrng_dqrunif" DL_FUNC._dqrng_dqrunif_try,
    Event.R_RegisterCCallable "dqrng" "_dqrng_runif" DL_FUNC._dqrng_runif_try,
    Event.R_RegisterCCallable "dqrng" "_dqrng_dqrnorm" DL_FUNC._dqrng_dqrnorm_try,
    Event.R_RegisterCCallable "dqrng" "_dqrng_rnorm" DL_FUNC._dqrng_rnorm_try,
    Event.R_RegisterCCallable "dqrng" "_dqrng_dqrexp" DL_FUNC._dqrng_dqrexp_try,
    Event.R_RegisterCCallable "dqrng" "_dqrng_rexp" DL_FUNC._dqrng_rexp_try,
    Event.R_RegisterCCallable "dqrng" "_dqrng_dqrrademacher" DL_FUNC._dqrng_dqrrademacher_try,
    Event.R_RegisterCCallable "dqrng" "_dqrng_dqsample_int" DL_FUNC._dqrng_dqsample_int_try,
    Event.R_RegisterCCallable "dqrng" "_dqrng_dqsample_num" DL_FUNC._dqrng_dqsample_num_try,
    Event.R_RegisterCCallable "dqrng" "_dqrng_RcppExport_validate" DL_FUNC._dqrng_RcppExport_validate,
    Event.ret R_NilValue ]

/-- The callables the registration function registers: name and function. -/
def registeredCallables : List (String × DL_FUNC) :=
  _dqrng_RcppExport_registerCCallable.filterMap fun e =>
    match e with
    | Event.R_RegisterCCallable _ name fptr => some (name, fptr)
    | _ => none

/-! ## The routine table -/

/-- One row of the routine table (`R_CallMethodDef`); the terminating row has
no name and no function. -/
structure R_CallMethodDef where
  name : Option String
  fun_ : Option DL_FUNC
  numArgs : Nat
  deriving DecidableEq, Repr

/-- The table `CallEntries` (lines 443 to 458). -/
def CallEntries : List R_CallMethodDef :=
  [ ⟨some "_dqrng_dqset_seed", some DL_FUNC._dqrng_dqset_seed, 2⟩,
    ⟨some "_dqrng_dqRNGkind", some DL_FUNC._dqrng_dqRNGkind, 2⟩,
    ⟨some "_dqrng_dqrunif", some DL_FUNC._dqrng_dqrunif, 3⟩,
    ⟨some "_dqrng_runif", some DL_FUNC._dqrng_runif, 2⟩,
    ⟨some "_dqrng_dqrnorm", some DL_FUNC._dqrng_dqrnorm, 3⟩,
    ⟨some "_dqrng_rnorm", some DL_FUNC._dqrng_rnorm, 2⟩,
    ⟨some "_dqrng_dqrexp", some DL_FUNC._dqrng_dqrexp, 2⟩,
    ⟨some "_dqrng_rexp", some DL_FUNC._dqrng_rexp, 1⟩,
    ⟨some "_dqrng_dqrrademacher", some DL_FUNC._dqrng_dqrrademacher, 1⟩,
    ⟨some "_dqrng_dqsample_int", some DL_FUNC._dqrng_dqsample_int, 5⟩,
    ⟨some "_dqrng_dqsample_num", some DL_FUNC._dqrng_dqsample_num, 5⟩,
    ⟨some "_dqrng_generateSeedVectors", some DL_FUNC._dqrng_generateSeedVectors, 2⟩,
    ⟨some "_dqrng_RcppExport_registerCCallable", some DL_FUNC._dqrng_RcppExport_registerCCallable, 0⟩,
    ⟨none, none, 0⟩ ]

/-- The rows of a routine table that the host reads: those before the first
row without a name. -/
def rowsBeforeSentinel : List R_CallMethodDef → List R_CallMethodDef
  | [] => []
  | e :: es => if e.name.isNone then [] else e :: rowsBeforeSentinel es

/-! ## Calls, as the host and other packages make them -/

/-- The C name of each function whose address is taken. -/
def DL_FUNC.symbol : DL_FUNC → String
  | ._dqrng_dqset_seed_try => "_dqrng_dqset_seed_try"
  | ._dqrng_dqRNGkind_try => "_dqrng_dqRNGkind_try"
  | ._dqrng_dqrunif_try => "_dqrng_dqrunif_try"
  | ._dqrng_runif_try => "_dqrng_runif_try"
  | ._dqrng_dqrnorm_try => "_dqrng_dqrnorm_try"
  | ._dqrng_rnorm_try => "_dqrng_rnorm_try"
  | ._dqrng_dqrexp_try => "_dqrng_dqrexp_try"
  | ._dqrng_rexp_try => "_dqrng_rexp_try"
  | ._dqrng_dqrrademacher_try => "_dqrng_dqrrademacher_try"
  | ._dqrng_dqsample_int_try => "_dqrng_dqsample_int_try"
  | ._dqrng_dqsample_num_try => "_dqrng_dqsample_num_try"
  | ._dqrng_RcppExport_validate => "_dqrng_RcppExport_validate"
  | ._dqrng_dqset_seed => "_dqrng_dqset_seed"
  | ._dqrng_dqRNGkind => "_dqrng_dqRNGkind"
  | ._dqrng_dqrunif => "_dqrng_dqrunif"
  | ._dqrng_runif => "_dqrng_runif"
  | ._dqrng_dqrnorm => "_dqrng_dqrnorm"
  | ._dqrng_rnorm => "_dqrng_rnorm"
  | ._dqrng_dqrexp => "_dqrng_dqrexp"
  | ._dqrng_rexp => "_dqrng_rexp"
  | ._dqrng_dqrrademacher => "_dqrng_dqrrademacher"
  | ._dqrng_dqsample_int => "_dqrng_dqsample_int"
  | ._dqrng_dqsample_num => "_dqrng_dqsample_num"
  | ._dqrng_generateSeedVectors => "_dqrng_generateSeedVectors"
  | ._dqrng_RcppExport_registerCCallable => "_dqrng_RcppExport_registerCCallable"

/-- Calling an exported routine through its address with the arguments the
host passes: the call is well formed when there are as many arguments as the
routine has parameters of type `SEXP`. The static functions are not routines
of the host. -/
def callRoutine {σ D : Type} (h : Host σ) (rc : Rcpp D) (core : Core σ D) :
    DL_FUNC → List SEXP → Option (σ → List Event × σ)
  | ._dqrng_dqset_seed, [a, b] => some (_dqrng_dqset_seed h rc core a b)
  | ._dqrng_dqRNGkind, [a, b] => some (_dqrng_dqRNGkind h rc core a b)
  | ._dqrng_dqrunif, [a, b, c] => some (_dqrng_dqrunif h rc core a b c)
  | ._dqrng_runif, [a, b] => some (_dqrng_runif h rc core a b)
  | ._dqrng_dqrnorm, [a, b, c] => some (_dqrng_dqrnorm h rc core a b c)
  | ._dqrng_rnorm, [a, b] => some (_dqrng_rnorm h rc core a b)
  | ._dqrng_dqrexp, [a, b] => some (_dqrng_dqrexp h rc core a b)
  | ._dqrng_rexp, [a] => some (_dqrng_rexp h rc core a)
  | ._dqrng_dqrrademacher, [a] => some (_dqrng_dqrrademacher h rc core a)
  | ._dqrng_dqsample_int, [a, b, c, d, e] => some (_dqrng_dqsample_int h rc core a b c d e)
  | ._dqrng_dqsample_num, [a, b, c, d, e] => some (_dqrng_dqsample_num h rc core a b c d e)
  | ._dqrng_generateSeedVectors, [a, b] => some (_dqrng_generateSeedVectors h rc core a b)
  | ._dqrng_RcppExport_registerCCallable, [] => some fun s => (_dqrng_RcppExport_registerCCallable, s)
  | _, _ => none

/-- A call of one of the eleven wrappers of the try pattern, with its
arguments. -/
inductive TryCall where
  | dqset_seed (seedSEXP streamSEXP : SEXP)
  | dqRNGkind (kindSEXP normal_kindSEXP : SEXP)
  | dqrunif (nSEXP minSEXP maxSEXP : SEXP)
  | runif (minSEXP maxSEXP : SEXP)
  | dqrnorm (nSEXP meanSEXP sdSEXP : SEXP)
  | rnorm (meanSEXP sdSEXP : SEXP)
  | dqrexp (nSEXP rateSEXP : SEXP)
  | rexp (rateSEXP : SEXP)
  | dqrrademacher (nSEXP : SEXP)
  | dqsample_int (mSEXP nSEXP replaceSEXP probsSEXP offsetSEXP : SEXP)
  | dqsample_num (mSEXP nSEXP replaceSEXP probsSEXP offsetSEXP : SEXP)
  deriving DecidableEq, Repr

/-- The `_try` function of a call. -/
def TryCall.tryFn {σ D : Type} (rc : Rcpp D) (core : Core σ D) : TryCall → σ → SEXP × σ
  | .dqset_seed a b => _dqrng_dqset_seed_try rc core a b
  | .dqRNGkind a b => _dqrng_dqRNGkind_try rc core a b
  | .dqrunif a b c => _dqrng_dqrunif_try rc core a b c
  | .runif a b => _dqrng_runif_try rc core a b
  | .dqrnorm a b c => _dqrng_dqrnorm_try rc core a b c
  | .rnorm a b => _dqrng_rnorm_try rc core a b
  | .dqrexp a b => _dqrng_dqrexp_try rc core a b
  | .rexp a => _dqrng_rexp_try rc core a
  | .dqrrademacher a => _dqrng_dqrrademacher_try rc core a
  | .dqsample_int a b c d e => _dqrng_dqsample_int_try rc core a b c d e
  | .dqsample_num a b c d e => _dqrng_dqsample_num_try rc core a b c d e

/-- The exported wrapper of a call. -/
def TryCall.wrapper {σ D : Type} (h : Host σ) (rc : Rcpp D) (core : Core σ D) :
    TryCall → σ → List Event × σ
  | .dqset_seed a b => _dqrng_dqset_seed h rc core a b
  | .dqRNGkind a b => _dqrng_dqRNGkind h rc core a b
  | .dqrunif a b c => _dqrng_dqrunif h rc core a b c
  | .runif a b => _dqrng_runif h rc core a b
  | .dqrnorm a b c => _dqrng_dqrnorm h rc core a b c
  | .rnorm a b => _dqrng_rnorm h rc core a b
  | .dqrexp a b => _dqrng_dqrexp h rc core a b
  | .rexp a => _dqrng_rexp h rc core a
  | .dqrrademacher a => _dqrng_dqrrademacher h rc core a
  | .dqsample_int a b c d e => _dqrng_dqsample_int h rc core a b c d e
  | .dqsample_num a b c d e => _dqrng_dqsample_num h rc core a b c d e

/-- What follows the first `(*` in a text. -/
def afterStar : List Char → List Char
  | '(' :: '*' :: rest => rest
  | _ :: rest => afterStar rest
  | [] => []

/-- The function name inside a signature string: the text between the first
`(*` and the next `)`. -/
def signatureName (sig : String) : String :=
  String.mk ((afterStar sig.toList).takeWhile fun c => c != ')')

/-! ## The protection stack -/

/-- The number of values a trace puts on the host's protection stack: its
`PROTECT` events. -/
def protects : List Event → Nat
  | [] => 0
  | Event.PROTECT _ :: t => protects t + 1
  | _ :: t => protects t

/-- The number of `UNPROTECT` calls of a trace. -/
def unprotects : List Event → Nat
  | [] => 0
  | Event.UNPROTECT _ :: t => unprotects t + 1
  | _ :: t => unprotects t

/-- The depth of the host's protection stack after the events of a trace,
from the depth `d`: `PROTECT` pushes one value, `UNPROTECT n` pops `n` values;
`none` when the trace pops more than the stack holds. -/
def stackAfter : List Event → Nat → Option Nat
  | [], d => some d
  | Event.PROTECT _ :: t, d => stackAfter t (d + 1)
  | Event.UNPROTECT n :: t, d => if n ≤ d then stackAfter t (d - n) else none
  | _ :: t, d => stackAfter t d

/-- The events through which control leaves a wrapper of the try pattern when
the host calls do not come back: the return, `Rf_onintr` and `Rf_error`. -/
def leavesWrapper : Event → Bool
  | Event.ret _ => true
  | Event.Rf_onintr => true
  | Event.Rf_error _ => true
  | _ => false

/-! ## The core, as the specification describes it

The functions the binding layer calls (`dqset_seed`, `dqrunif`, `dqrnorm`,
`dqsample_int`, ...) are declared in `src/RcppExports.cpp` and defined
elsewhere in the package. What follows models the ones the properties below
are about from the specification, under the names the specification gives to
the entry points. Reals are rationals. -/

namespace Spec

/-- Modelled from the spec: the error taxonomy of §7 (the bodies of the core
functions, which raise these, are missing). -/
inductive ErrorKind where
  | configuration
  | domain
  | precision
  | interrupted
  deriving DecidableEq, Repr

/-- Modelled from the spec: the capability interface shared by the engine
families (§4.1, §9: `seed`, `next_uint`, `supports_streams`); the engine
classes of the package are missing. `seed material stream` is the state a
freshly seeded engine starts from, `next_uint` returns one machine word and
the advanced state. -/
structure Engine (ε : Type) where
  seed : List Int → Option (List Int) → ε
  next_uint : ε → Nat × ε
  supports_streams : Bool

/-- Modelled from the spec: what the core is built over and the spec does not
fix (the definitions of the package are missing): the active engine family;
the operating system's entropy source (§4.1; its `k`-th answer); the selected
normal transform as a source of standard normal variates (§4.3, §9); how many
words a bounded draw may reject before it takes one (§4.3, §5); which of the
two leading arguments of `sample_int(m, n, ...)` is the population, on which
the spec is of two minds (the table of §6: population `m`, sample size `n`;
§3, §4.4 and §8: sample size `m`, population `n`); and the sampling
procedures other than the uniform one without replacement (§4.4, §9), which
yield indices of the population. -/
structure Env (ε : Type) where
  engine : Engine ε
  osEntropy : Nat → List Int
  normalVariate : ε → ℚ × ε
  retries : Nat
  populationFirst : Bool
  otherSampling : (replace : Bool) → (weights : Option (List ℚ)) →
    (size population : Nat) → ε → List Nat × ε

/-- Modelled from the spec: the state of the Seed Manager (§4.2; the
definition of the process-wide instance is missing): the state of the active
engine, and how often the entropy source has been asked. -/
structure State (ε : Type) where
  engine : ε
  entropyDrawn : Nat

/-- Modelled from the spec: the result of an operation of the core (§9: a
value or one of the error kinds), with the state it leaves. -/
abbrev Result (ε α : Type) := Except ErrorKind α × State ε

/-- Modelled from the spec: the entry point `seed` (§4.1, §6; the body of
`dqset_seed` is missing). A stream id on a family that cannot be partitioned
is a configuration error that leaves the state as it is (§7); absent material
is drawn from the entropy source; otherwise the engine state is the freshly
seeded one. -/
def seed {ε : Type} (env : Env ε) (material : Option (List Int)) (stream : Option (List Int))
    (st : State ε) : Result ε Unit :=
  if stream.isSome && !env.engine.supports_streams then
    (.error .configuration, st)
  else
    match material with
    | some m => (.ok (), { st with engine := env.engine.seed m stream })
    | none =>
        (.ok (), { engine := env.engine.seed (env.osEntropy st.entropyDrawn) stream,
                   entropyDrawn := st.entropyDrawn + 1 })

/-- The number of values of a machine word. -/
def wordRange : Nat := 2 ^ 64

/-- Modelled from the spec: `k` calls of `next_uint` (§4.1), each returning
one machine word and advancing the engine. -/
def drawWords {ε : Type} (e : Engine ε) : Nat → ε → List Nat × ε
  | 0, s => ([], s)
  | k + 1, s =>
      let r := e.next_uint s
      let rest := drawWords e k r.2
      (r.1 % wordRange :: rest.1, rest.2)

/-- Modelled from the spec: the entry point `uniform(n, min, max)` (§4.3, §6;
the body of `dqrunif` is missing): `n` draws, each consuming one raw word and
scaling it into the half-open interval from `min` to `max`. -/
def uniform {ε : Type} (env : Env ε) (n : Nat) (min max : ℚ) (st : State ε) :
    Result ε (List ℚ) :=
  let r := drawWords env.engine n st.engine
  (.ok (r.1.map fun (w : Nat) => min + (max - min) * ((w : ℚ) / (wordRange : ℚ))),
    { st with engine := r.2 })

/-- Modelled from the spec: `n` standard normal variates from the selected
transform, scaled by `sd` and shifted by `mean` (§4.3). -/
def normalDraws {ε : Type} (env : Env ε) (mean sd : ℚ) : Nat → ε → List ℚ × ε
  | 0, s => ([], s)
  | k + 1, s =>
      let r := env.normalVariate s
      let rest := normalDraws env mean sd k r.2
      ((mean + sd * r.1) :: rest.1, rest.2)

/-- Modelled from the spec: the entry point `normal(n, mean, sd)` (§4.3, §6;
the body of `dqrnorm` is missing): a negative `sd` is rejected as a domain
error that leaves the state as it is (§7). -/
def normal {ε : Type} (env : Env ε) (n : Nat) (mean sd : ℚ) (st : State ε) :
    Result ε (List ℚ) :=
  if sd < 0 then
    (.error .domain, st)
  else
    let r := normalDraws env mean sd n st.engine
    (.ok r.1, { st with engine := r.2 })

/-- Modelled from the spec: the bias-corrected draw of an integer below
`range` (§4.3, §4.4): the word is scaled by `range`, and rejected and redrawn
where the scaling would favour some values. Every operation being a bounded
computation (§5), at most `retries` words are rejected; the next one is
taken as it is. -/
def uniformBelow {ε : Type} (e : Engine ε) (range : Nat) : (retries : Nat) → ε → Nat × ε
  | 0, s =>
      let r := e.next_uint s
      ((r.1 % wordRange) * range / wordRange, r.2)
  | retries + 1, s =>
      let r := e.next_uint s
      let scaled := (r.1 % wordRange) * range
      if scaled % wordRange < (wordRange - range) % range then
        uniformBelow e range retries r.2
      else
        (scaled / wordRange, r.2)

/-- The entries of the virtual index array `0, 1, 2, ...` that a partial
shuffle has moved: position and value, the latest first. -/
abbrev Moved := List (Nat × Nat)

/-- The value at position `k` of the virtual index array. -/
def Moved.get (a : Moved) (k : Nat) : Nat := (a.lookup k).getD k

/-- The virtual index array with `v` stored at position `k`. -/
def Moved.set (a : Moved) (k v : Nat) : Moved := (k, v) :: a

/-- Modelled from the spec: the partial Fisher-Yates shuffle of §4.4 over the
population `0, ..., n - 1`, from step `i` on for `steps` steps, which keeps
the moved entries only instead of materialising all `n` indices: step `i`
draws a position `j` among `i, ..., n - 1`, outputs its value and moves the
value of position `i` there. -/
def partialShuffle {ε : Type} (e : Engine ε) (retries n : Nat) :
    (steps : Nat) → (i : Nat) → Moved → ε → List Nat × ε
  | 0, _, _, s => ([], s)
  | steps + 1, i, a, s =>
      let d := uniformBelow e (n - i) retries s
      let j := i + d.1
      let rest := partialShuffle e retries n steps (i + 1) (a.set j (a.get i)) d.2
      (a.get j :: rest.1, rest.2)

/-- Modelled from the spec: the population size of the request
`sample_int(m, n, ...)` (the body of `dqsample_int` is missing): `m` with the
roles of the table of §6, `n` with those of §3, §4.4 and §8. -/
def population {ε : Type} (env : Env ε) (m n : Nat) : Nat :=
  if env.populationFirst then m else n

/-- Modelled from the spec: the sample size of the request
`sample_int(m, n, ...)` (the body of `dqsample_int` is missing): `n` with the
roles of the table of §6, `m` with those of §3, §4.4 and §8. -/
def sampleSize {ε : Type} (env : Env ε) (m n : Nat) : Nat :=
  if env.populationFirst then n else m

/-- Modelled from the spec: the entry point `sample_int(m, n, replace, probs,
offset)` (§3, §4.4, §6, §7; the body of `dqsample_int` is missing). A request
without replacement whose sample size exceeds the population, or with a
weight vector of a length other than the population size, with a negative
entry or without a positive sum, is a domain error that leaves the state as
it is. Otherwise the procedure is chosen by `replace` and the presence of
weights (the uniform one without replacement is the partial shuffle), and
`offset` is added to every index. -/
def sample_int {ε : Type} (env : Env ε) (m n : Nat) (replace : Bool)
    (probs : Option (List ℚ)) (offset : Int) (st : State ε) : Result ε (List Int) :=
  let shift : List Nat × ε → Result ε (List Int) := fun p =>
    (.ok (p.1.map fun (v : Nat) => offset + Int.ofNat v), { st with engine := p.2 })
  if !replace && population env m n < sampleSize env m n then
    (.error .domain, st)
  else
    match probs with
    | some w =>
        if w.length ≠ population env m n ∨ (∃ x ∈ w, x < 0) ∨ w.sum ≤ 0 then
          (.error .domain, st)
        else
          shift (env.otherSampling replace (some w) (sampleSize env m n) (population env m n)
            st.engine)
    | none =>
        if replace then
          shift (env.otherSampling true none (sampleSize env m n) (population env m n)
            st.engine)
        else
          shift (partialShuffle env.engine env.retries (population env m n)
            (sampleSize env m n) 0 [] st.engine)

/-- Modelled from the spec: the C++ exception that reports an error of the
core to the binding layer (§6, §9; the bodies that throw are missing): an
interruption is the exception of that name, every other kind a
`std::exception` with the kind as its message. -/
def ErrorKind.thrown : ErrorKind → Thrown
  | .interrupted => Thrown.interrupted
  | .configuration => Thrown.exception "configuration error"
  | .domain => Thrown.exception "domain error"
  | .precision => Thrown.exception "precision error"

/-- Modelled from the spec: an operation of the core, as the C++ function the
binding layer calls (the bodies are missing): an error is thrown. -/
def thrown {ε α : Type} (r : Result ε α) : Except Thrown α × State ε :=
  (match r.1 with
    | .ok a => .ok a
    | .error k => .error k.thrown,
   r.2)

/-- Modelled from the spec: the functions of the package that the binding
layer calls (their bodies are missing), with the four that are modelled above
in the place of their declarations (`dqset_seed`,
`dqrunif`, `dqrnorm`, `dqsample_int`) and the others as they are given in
`rest`. A negative size is not clamped (§7): it is a domain error. -/
def core {ε : Type} (env : Env ε) (rest : Core (State ε) ℚ) : Core (State ε) ℚ :=
  { rest with
    dqset_seed := fun material stream st => thrown (seed env material stream st)
    dqrunif := fun n min max st => thrown (uniform env n min max st)
    dqrnorm := fun n mean sd st => thrown (normal env n mean sd st)
    dqsample_int := fun m n replace probs offset st =>
      if m < 0 ∨ n < 0 then
        thrown (.error .domain, st)
      else
        thrown (sample_int env m.toNat n.toNat replace probs offset st) }

end Spec

/-! ## Concrete instances, for evaluating the definitions -/

namespace Example

/-- A small world: the state of the package's engine, the host RNG state in
use and the host's top-level RNG state (`.Random.seed`). -/
structure World where
  engine : Nat
  rngInUse : Nat
  randomSeed : Nat
  deriving DecidableEq, Repr

/-- A host whose `resumeJump` and `Rf_error` do not come back, whose
`Rf_onintr` comes back as `onintrReturns` says, and whose RNG scope reads the
top-level RNG state in and writes it back. -/
def host (onintrReturns : Bool) : Host World :=
  { onintrReturns := onintrReturns
    resumeJumpReturns := false
    errorReturns := false
    enterRNGScope := fun w => { w with rngInUse := w.randomSeed }
    exitRNGScope := fun w => { w with randomSeed := w.rngInUse } }

/-- A host value holding the number `k`. -/
def num (k : Nat) : SEXP := { classes := [], chars := "", sentinel := false, ref := k }

/-- A host value holding text. -/
def str (t : String) : SEXP := { classes := ["character"], chars := t, sentinel := false, ref := 0 }

/-- Conversions over integers in place of `double`: a number is read from
`ref`, text is not a number, `NULL` is the absent vector; a list of numbers is
wrapped as the value holding its digits. -/
def rcpp : Rcpp Int :=
  let number : SEXP → Except Thrown Nat := fun x =>
    if x.classes = [] then .ok x.ref else .error (.exception "Not compatible")
  let digits : List Int → Nat := fun xs => xs.foldl (fun acc x => 10 * acc + x.toNat) 0
  { as_int := fun x => (number x).map Int.ofNat
    as_size_t := number
    as_double := fun x => (number x).map Int.ofNat
    as_bool := fun x => (number x).map fun k => k != 0
    as_string := fun x => .ok x.chars
    as_Nullable_IntegerVector := fun x =>
      if x = R_NilValue then .ok none else (number x).map fun k => some [Int.ofNat k]
    as_Nullable_NumericVector := fun x =>
      if x = R_NilValue then .ok none else (number x).map fun k => some [Int.ofNat k]
    wrap_double := fun d => num d.toNat
    wrap_NumericVector := fun xs => num (digits xs)
    wrap_IntegerVector := fun xs => num (digits xs)
    wrap_List := fun xs => num xs.length
    interruptedError := { classes := ["interrupted-error"], chars := "", sentinel := false, ref := 0 }
    exception_to_try_error := fun what =>
      { classes := ["try-error"], chars := what, sentinel := false, ref := 0 }
    string_to_try_error := fun what =>
      { classes := ["try-error"], chars := what, sentinel := false, ref := 0 } }

/-- A core over the small world. Seeding sets the engine, every draw advances
it by one; `dqrunif` is interrupted when asked for more than 1000 values,
`dqrnorm` throws on a negative `sd` (here: `mean < sd` stands in for it, the
numbers being naturals), the sampling functions return their five arguments,
and `generateSeedVectors` advances the host RNG state in use. -/
def core : Core World Int :=
  { dqset_seed := fun seed _ w => (.ok (), { w with engine := (seed.getD []).length })
    dqRNGkind := fun kind _ w =>
      if kind = "default" then (.ok (), { w with engine := 0 })
      else (.error (.exception "unknown kind"), w)
    dqrunif := fun n min _ w =>
      if 1000 < n then (.error .interrupted, { w with engine := w.engine + 1000 })
      else (.ok (List.replicate n min), { w with engine := w.engine + n })
    runif := fun min _ w => (.ok min, { w with engine := w.engine + 1 })
    dqrnorm := fun n mean sd w =>
      if mean < sd then (.error (.exception "sd must not be negative"), w)
      else (.ok (List.replicate n mean), { w with engine := w.engine + n })
    rnorm := fun mean _ w => (.ok mean, { w with engine := w.engine + 1 })
    dqrexp := fun n rate w => (.ok (List.replicate n rate), { w with engine := w.engine + n })
    rexp := fun rate w => (.ok rate, { w with engine := w.engine + 1 })
    dqrrademacher := fun n w => (.ok (List.replicate n 1), { w with engine := w.engine + n })
    dqsample_int := fun m n replace probs offset w =>
      (.ok [m, n, if replace then 1 else 0, ((probs.getD []).length : Int), offset],
        { w with engine := w.engine + 1 })
    dqsample_num := fun m n replace probs offset w =>
      (.ok [m, n, if replace then 1 else 0, ((probs.getD []).length : Int), offset],
        { w with engine := w.engine + 1 })
    generateSeedVectors := fun nseeds _ w =>
      (.ok (List.replicate nseeds.toNat R_NilValue), { w with rngInUse := w.rngInUse + 1 }) }

/-- A world to start from. -/
def world : World := { engine := 7, rngInUse := 0, randomSeed := 42 }

/-- A linear congruential engine on 64-bit words, seeded with the sum of the
material and the stream id; it supports streams. -/
def lcg : Spec.Engine Nat :=
  { seed := fun material stream => (material.sum + (stream.getD []).sum).toNat % Spec.wordRange
    next_uint := fun s =>
      let t := (6364136223846793005 * s + 1442695040888963407) % Spec.wordRange
      (t, t)
    supports_streams := true }

/-- An environment over the linear congruential engine, with the roles of the
two leading arguments of `sample_int` as `populationFirst` says; the normal
transform and the other sampling procedures are placeholders that draw
nothing. -/
def env (populationFirst : Bool) : Spec.Env Nat :=
  { engine := lcg
    osEntropy := fun k => [Int.ofNat k]
    normalVariate := fun s => (0, s)
    retries := 8
    populationFirst := populationFirst
    otherSampling := fun _ _ _ _ s => ([], s) }

/-- A host value holding the number `-k`. -/
def minus (k : Nat) : SEXP := { classes := ["minus"], chars := "", sentinel := false, ref := k }

/-- Conversions with rationals for `double`, as `rcpp` with integers; a value
made by `minus` is a negative real. -/
def rcppQ : Rcpp ℚ :=
  let number : SEXP → Except Thrown Nat := fun x =>
    if x.classes = [] then .ok x.ref else .error (.exception "Not compatible")
  let digits : List Int → Nat := fun xs => xs.foldl (fun acc x => 10 * acc + x.toNat) 0
  { as_int := fun x => (number x).map Int.ofNat
    as_size_t := number
    as_double := fun x =>
      if x.classes = ["minus"] then .ok (-(x.ref : ℚ)) else (number x).map fun k => (k : ℚ)
    as_bool := fun x => (number x).map fun k => k != 0
    as_string := fun x => .ok x.chars
    as_Nullable_IntegerVector := fun x =>
      if x = R_NilValue then .ok none else (number x).map fun k => some [Int.ofNat k]
    as_Nullable_NumericVector := fun x =>
      if x = R_NilValue then .ok none else (number x).map fun k => some [(k : ℚ)]
    wrap_double := fun d => num d.num.toNat
    wrap_NumericVector := fun xs => num xs.length
    wrap_IntegerVector := fun xs => num (digits xs)
    wrap_List := fun xs => num xs.length
    interruptedError := { classes := ["interrupted-error"], chars := "", sentinel := false, ref := 0 }
    exception_to_try_error := fun what =>
      { classes := ["try-error"], chars := what, sentinel := false, ref := 0 }
    string_to_try_error := fun what =>
      { classes := ["try-error"], chars := what, sentinel := false, ref := 0 } }

/-- Placeholders for the functions of the package that are not modelled from
the spec: each throws. -/
def rest : Core (Spec.State Nat) ℚ :=
  { dqset_seed := fun _ _ st => (.error .other, st)
    dqRNGkind := fun _ _ st => (.error .other, st)
    dqrunif := fun _ _ _ st => (.error .other, st)
    runif := fun _ _ st => (.error .other, st)
    dqrnorm := fun _ _ _ st => (.error .other, st)
    rnorm := fun _ _ st => (.error .other, st)
    dqrexp := fun _ _ st => (.error .other, st)
    rexp := fun _ st => (.error .other, st)
    dqrrademacher := fun _ st => (.error .other, st)
    dqsample_int := fun _ _ _ _ _ st => (.error .other, st)
    dqsample_num := fun _ _ _ _ _ st => (.error .other, st)
    generateSeedVectors := fun _ _ st => (.error .other, st) }

end Example

/-! ## The wrappers of the try pattern -/

theorem TryCall.wrapper_eq {σ D : Type} (h : Host σ) (rc : Rcpp D) (core : Core σ D)
    (c : TryCall) (s : σ) :
    c.wrapper h rc core s = (exportedBody h (c.tryFn rc core s).1, (c.tryFn rc core s).2) := by
  cases c <;> rfl

theorem exportedBody_plain {σ : Type} (h : Host σ) (r : SEXP)
    (hint : Rf_inherits r "interrupted-error" = false) (hsen : isLongjumpSentinel r = false) :
    exportedBody h r = Event.PROTECT r :: afterLongjumpCheck h r := by
  simp [exportedBody, afterInterruptCheck, hint, hsen]

theorem exportedBody_interrupt {σ : Type} (h : Host σ) (r : SEXP)
    (hint : Rf_inherits r "interrupted-error" = true) :
    exportedBody h r = Event.PROTECT r :: Event.UNPROTECT 1 :: Event.Rf_onintr ::
      (if h.onintrReturns then afterInterruptCheck h r else []) := by
  simp [exportedBody, hint]

theorem error_mem_afterLongjumpCheck {σ : Type} (h : Host σ) (r : SEXP) (msg : String) :
    Event.Rf_error msg ∈ afterLongjumpCheck h r ↔
      (Rf_inherits r "try-error" = true ∧ msg = Rf_asChar r) := by
  unfold afterLongjumpCheck
  by_cases he : Rf_inherits r "try-error" = true
  · by_cases hr : h.errorReturns = true <;> simp [he, hr]
  · simp [he]

/-- C1: for each of the eleven wrappers of the try pattern, called with any
arguments in any state, when the result `r` of its `_try` function neither
inherits `"interrupted-error"` nor is a longjump sentinel: the wrapper calls
`Rf_error` with a message exactly when `r` inherits `"try-error"`, the message
then being the text of `r`; and when `r` does not inherit `"try-error"` the
wrapper protects `r`, unprotects it and returns `r` itself. -/
theorem C1_error_iff_try_error_else_result_returned {σ D : Type} (h : Host σ) (rc : Rcpp D)
    (core : Core σ D) (c : TryCall) (s : σ)
    (hint : Rf_inherits (c.tryFn rc core s).1 "interrupted-error" = false)
    (hsen : isLongjumpSentinel (c.tryFn rc core s).1 = false) :
    (∀ msg, Event.Rf_error msg ∈ (c.wrapper h rc core s).1 ↔
      (Rf_inherits (c.tryFn rc core s).1 "try-error" = true ∧
        msg = Rf_asChar (c.tryFn rc core s).1)) ∧
    (Rf_inherits (c.tryFn rc core s).1 "try-error" = false →
      (c.wrapper h rc core s).1 =
        [Event.PROTECT (c.tryFn rc core s).1, Event.UNPROTECT 1,
          Event.ret (c.tryFn rc core s).1]) := by
  rw [TryCall.wrapper_eq]
  simp only [exportedBody_plain h _ hint hsen]
  refine ⟨fun msg => ?_, fun he => ?_⟩
  · rw [List.mem_cons, error_mem_afterLongjumpCheck]
    simp
  · simp [afterLongjumpCheck, he]

/-- C1, on an instance: `dqrnorm` throws on the concrete arguments, the
`_try` function returns a `"try-error"` object, and the wrapper raises it. -/
theorem C1_error_iff_try_error_else_result_returned_witness :
    Rf_inherits ((TryCall.dqrnorm (Example.num 5) (Example.num 0) (Example.num 1)).tryFn
        Example.rcpp Example.core Example.world).1 "interrupted-error" = false ∧
    isLongjumpSentinel ((TryCall.dqrnorm (Example.num 5) (Example.num 0) (Example.num 1)).tryFn
        Example.rcpp Example.core Example.world).1 = false ∧
    Event.Rf_error "sd must not be negative" ∈
      ((TryCall.dqrnorm (Example.num 5) (Example.num 0) (Example.num 1)).wrapper
        (Example.host false) Example.rcpp Example.core Example.world).1 :=
  ⟨by decide, by decide,
    ((C1_error_iff_try_error_else_result_returned (Example.host false) Example.rcpp Example.core
      (TryCall.dqrnorm (Example.num 5) (Example.num 0) (Example.num 1)) Example.world
      (by decide) (by decide)).1 "sd must not be negative").2 ⟨by decide, by decide⟩⟩

/-- C2, the code at the failing input: `dqrunif` is interrupted, so its `_try`
function returns the `"interrupted-error"` object, on a host whose
`Rf_onintr` comes back to its caller. The wrapper `_dqrng_dqrunif` then goes
on after the call: it executes `UNPROTECT(1)` a second time, which pops more
than the wrapper has protected, and returns the `"interrupted-error"` object
to its caller as a value. The wrapper of `generateSeedVectors`, written with
`END_RCPP`, returns `R_NilValue` on the same path. -/
theorem C2_interrupted_result_returned_when_onintr_returns :
    Rf_inherits (_dqrng_dqrunif_try Example.rcpp Example.core
        (Example.num 2000) (Example.num 0) (Example.num 1) Example.world).1
      "interrupted-error" = true ∧
    (_dqrng_dqrunif (Example.host true) Example.rcpp Example.core
        (Example.num 2000) (Example.num 0) (Example.num 1) Example.world).1 =
      [Event.PROTECT Example.rcpp.interruptedError, Event.UNPROTECT 1, Event.Rf_onintr,
        Event.UNPROTECT 1, Event.ret Example.rcpp.interruptedError] ∧
    unprotects (_dqrng_dqrunif (Example.host true) Example.rcpp Example.core
        (Example.num 2000) (Example.num 0) (Example.num 1) Example.world).1 = 2 ∧
    stackAfter (_dqrng_dqrunif (Example.host true) Example.rcpp Example.core
        (Example.num 2000) (Example.num 0) (Example.num 1) Example.world).1 0 = none ∧
    END_RCPP (Example.host true) (.error .interrupted) =
      [Event.Rf_onintr, Event.ret R_NilValue] := by
  decide

/-- What the wrappers do by themselves with an interrupted result: for each of
the eleven wrappers of the try pattern, when the result of its `_try` function
inherits `"interrupted-error"`, the wrapper protects the result, unprotects it
and calls `Rf_onintr` before anything else (so before the longjump and the
`"try-error"` checks); and on a host whose `Rf_onintr` does not come back to
the wrapper that is all it does: it calls neither `Rf_error` nor `resumeJump`,
and returns nothing to its caller. -/
theorem interrupt_handed_to_onintr_first {σ D : Type} (h : Host σ) (rc : Rcpp D)
    (core : Core σ D) (c : TryCall) (s : σ)
    (hint : Rf_inherits (c.tryFn rc core s).1 "interrupted-error" = true) :
    [Event.PROTECT (c.tryFn rc core s).1, Event.UNPROTECT 1, Event.Rf_onintr] <+:
        (c.wrapper h rc core s).1 ∧
    (h.onintrReturns = false →
      (c.wrapper h rc core s).1 =
          [Event.PROTECT (c.tryFn rc core s).1, Event.UNPROTECT 1, Event.Rf_onintr] ∧
        (∀ msg, Event.Rf_error msg ∉ (c.wrapper h rc core s).1) ∧
        (∀ token, Event.resumeJump token ∉ (c.wrapper h rc core s).1) ∧
        (∀ v, Event.ret v ∉ (c.wrapper h rc core s).1)) := by
  rw [TryCall.wrapper_eq]
  simp only [exportedBody_interrupt h _ hint]
  refine ⟨⟨_, rfl⟩, fun hno => ?_⟩
  simp [hno]

/-- C11: on a host whose `Rf_onintr`, `resumeJump` and `Rf_error` do not come
back to the wrapper, in each of the eleven wrappers of the try pattern: on the
longjump path the wrapper protects the result and resumes the jump; on every
other path (interrupt, error, success) the trace is the one `PROTECT` of the
`_try` result, one `UNPROTECT(1)`, and then the event through which control
leaves the wrapper (`Rf_onintr` on the interrupt path, `Rf_error` on the
error path, the return of the result on the success path); so the trace has
one `PROTECT` and one `UNPROTECT`, never two, and leaves the protection stack
at the depth it found. -/
theorem C11_protection_stack_balanced {σ D : Type} (h : Host σ) (rc : Rcpp D)
    (core : Core σ D) (c : TryCall) (s : σ)
    (honintr : h.onintrReturns = false) (hresume : h.resumeJumpReturns = false)
    (herror : h.errorReturns = false) :
    (Rf_inherits (c.tryFn rc core s).1 "interrupted-error" = false →
      isLongjumpSentinel (c.tryFn rc core s).1 = true →
      (c.wrapper h rc core s).1 =
        [Event.PROTECT (c.tryFn rc core s).1, Event.resumeJump (c.tryFn rc core s).1]) ∧
    ((Rf_inherits (c.tryFn rc core s).1 "interrupted-error" = true ∨
        isLongjumpSentinel (c.tryFn rc core s).1 = false) →
      (∃ last, (c.wrapper h rc core s).1 =
          [Event.PROTECT (c.tryFn rc core s).1, Event.UNPROTECT 1, last] ∧
        leavesWrapper last = true ∧
        last =
          (if Rf_inherits (c.tryFn rc core s).1 "interrupted-error" then Event.Rf_onintr
           else if Rf_inherits (c.tryFn rc core s).1 "try-error" then
             Event.Rf_error (Rf_asChar (c.tryFn rc core s).1)
           else Event.ret (c.tryFn rc core s).1)) ∧
      protects (c.wrapper h rc core s).1 = 1 ∧
      unprotects (c.wrapper h rc core s).1 = 1 ∧
      ∀ d, stackAfter (c.wrapper h rc core s).1 d = some d) := by
  rw [TryCall.wrapper_eq]
  generalize (c.tryFn rc core s).1 = r
  constructor
  · intro hint hsen
    simp [exportedBody, afterInterruptCheck, hint, hsen, hresume]
  · intro hpath
    by_cases hint : Rf_inherits r "interrupted-error" = true
    · simp [exportedBody, hint, honintr, leavesWrapper, protects, unprotects, stackAfter]
    · have hint2 : Rf_inherits r "interrupted-error" = false := by simpa using hint
      have hsen : isLongjumpSentinel r = false := by
        rcases hpath with hp | hp
        · exact absurd hp hint
        · exact hp
      by_cases herr : Rf_inherits r "try-error" = true
      · simp [exportedBody, afterInterruptCheck, afterLongjumpCheck, hint2, hsen, herr, herror,
          leavesWrapper, protects, unprotects, stackAfter]
      · have herr2 : Rf_inherits r "try-error" = false := by simpa using herr
        simp [exportedBody, afterInterruptCheck, afterLongjumpCheck, hint2, hsen, herr2,
          leavesWrapper, protects, unprotects, stackAfter]

/-- C11, on an instance: the host of the example whose three calls do not
come back, and the wrapper of `dqrnorm` on arguments on which the core
throws: one `PROTECT`, one `UNPROTECT(1)`, then `Rf_error`. -/
theorem C11_protection_stack_balanced_witness :
    ((Example.host false).onintrReturns = false ∧
      (Example.host false).resumeJumpReturns = false ∧
      (Example.host false).errorReturns = false) ∧
    protects ((TryCall.dqrnorm (Example.num 5) (Example.num 0) (Example.num 1)).wrapper
        (Example.host false) Example.rcpp Example.core Example.world).1 = 1 ∧
    unprotects ((TryCall.dqrnorm (Example.num 5) (Example.num 0) (Example.num 1)).wrapper
        (Example.host false) Example.rcpp Example.core Example.world).1 = 1 ∧
    ∀ d, stackAfter ((TryCall.dqrnorm (Example.num 5) (Example.num 0) (Example.num 1)).wrapper
        (Example.host false) Example.rcpp Example.core Example.world).1 d = some d :=
  ⟨⟨rfl, rfl, rfl⟩,
    ((C11_protection_stack_balanced (Example.host false) Example.rcpp Example.core
      (TryCall.dqrnorm (Example.num 5) (Example.num 0) (Example.num 1)) Example.world
      rfl rfl rfl).2 (Or.inr (by decide))).2⟩

/-! ## Validation, registration and the routine table -/

theorem validate_from_empty (sig : String) :
    (_dqrng_RcppExport_validate sig []).2 =
      [ "void(*dqset_seed)(Rcpp::Nullable<Rcpp::IntegerVector>,Rcpp::Nullable<Rcpp::IntegerVector>)",
        "void(*dqRNGkind)(std::string,const std::string&)",
        "Rcpp::NumericVector(*dqrunif)(size_t,double,double)",
        "double(*runif)(double,double)",
        "Rcpp::NumericVector(*dqrnorm)(size_t,double,double)",
        "double(*rnorm)(double,double)",
        "Rcpp::NumericVector(*dqrexp)(size_t,double)",
        "double(*rexp)(double)",
        "Rcpp::IntegerVector(*dqrrademacher)(size_t)",
        "Rcpp::IntegerVector(*dqsample_int)(int,int,bool,Rcpp::Nullable<Rcpp::NumericVector>,int)",
        "Rcpp::NumericVector(*dqsample_num)(double,double,bool,Rcpp::Nullable<Rcpp::NumericVector>,int)" ] := by
  have h : (_dqrng_RcppExport_validate sig []).2 = (_dqrng_RcppExport_validate "" []).2 := rfl
  rw [h]
  decide

theorem validate_answer (sig : String) (signatures : List String) :
    (_dqrng_RcppExport_validate sig signatures).1 =
      if sig ∈ (_dqrng_RcppExport_validate sig signatures).2 then 1 else 0 := by
  rfl

theorem validate_state_indep (sig sig2 : String) (signatures : List String) :
    (_dqrng_RcppExport_validate sig signatures).2 =
      (_dqrng_RcppExport_validate sig2 signatures).2 := by
  rfl

theorem validate_from_populated (sig : String) (signatures : List String)
    (hs : signatures = (_dqrng_RcppExport_validate sig []).2) :
    (_dqrng_RcppExport_validate sig signatures).2 = signatures := by
  subst hs
  rw [validate_from_empty]
  rfl

theorem signaturesAfter_cases (sigs : List String) :
    signaturesAfter sigs = [] ∨ signaturesAfter sigs = (_dqrng_RcppExport_validate "" []).2 := by
  unfold signaturesAfter
  suffices H : ∀ (acc : List String),
      (acc = [] ∨ acc = (_dqrng_RcppExport_validate "" []).2) →
      (sigs.foldl (fun signatures sig => (_dqrng_RcppExport_validate sig signatures).2) acc = [] ∨
        sigs.foldl (fun signatures sig => (_dqrng_RcppExport_validate sig signatures).2) acc =
          (_dqrng_RcppExport_validate "" []).2) from H [] (Or.inl rfl)
  induction sigs with
  | nil => intro acc h; simpa using h
  | cons x xs ih =>
    intro acc h
    rw [List.foldl_cons]
    apply ih
    right
    rcases h with h | h
    · subst h; exact validate_state_indep _ _ _
    · rw [validate_from_populated x acc (h.trans (validate_state_indep _ _ _))]
      exact h

theorem validate_state_after (sig : String) (earlier : List String) :
    (_dqrng_RcppExport_validate sig (signaturesAfter earlier)).2 =
      (_dqrng_RcppExport_validate sig []).2 := by
  rcases signaturesAfter_cases earlier with h | h
  · rw [h]
  · rw [validate_from_populated sig _ (h.trans (validate_state_indep _ _ _)), h]
    exact validate_state_indep _ _ _

/-- C3: after any calls made earlier in the process, `_dqrng_RcppExport_validate`
answers a non-zero value exactly for the eleven registered signature strings,
compared character for character, and 0 for every other string; and the answer
for a string is the one the first call of the process (which fills the set)
gives for it. -/
theorem C3_validate_accepts_exactly_registered_signatures (earlier : List String) (sig : String) :
    ((_dqrng_RcppExport_validate sig (signaturesAfter earlier)).1 ≠ 0 ↔
      (sig = "void(*dqset_seed)(Rcpp::Nullable<Rcpp::IntegerVector>,Rcpp::Nullable<Rcpp::IntegerVector>)" ∨
       sig = "void(*dqRNGkind)(std::string,const std::string&)" ∨
       sig = "Rcpp::NumericVector(*dqrunif)(size_t,double,double)" ∨
       sig = "double(*runif)(double,double)" ∨
       sig = "Rcpp::NumericVector(*dqrnorm)(size_t,double,double)" ∨
       sig = "double(*rnorm)(double,double)" ∨
       sig = "Rcpp::NumericVector(*dqrexp)(size_t,double)" ∨
       sig = "double(*rexp)(double)" ∨
       sig = "Rcpp::IntegerVector(*dqrrademacher)(size_t)" ∨
       sig = "Rcpp::IntegerVector(*dqsample_int)(int,int,bool,Rcpp::Nullable<Rcpp::NumericVector>,int)" ∨
       sig = "Rcpp::NumericVector(*dqsample_num)(double,double,bool,Rcpp::Nullable<Rcpp::NumericVector>,int)")) ∧
    ((_dqrng_RcppExport_validate sig (signaturesAfter earlier)).1 = 0 ∨
      (_dqrng_RcppExport_validate sig (signaturesAfter earlier)).1 = 1) ∧
    (_dqrng_RcppExport_validate sig (signaturesAfter earlier)).1 =
      (_dqrng_RcppExport_validate sig (signaturesAfter [])).1 := by
  have h1 : (_dqrng_RcppExport_validate sig (signaturesAfter earlier)).1 =
      if sig ∈ (_dqrng_RcppExport_validate sig []).2 then 1 else 0 := by
    rw [validate_answer, validate_state_after]
  have h0 : (_dqrng_RcppExport_validate sig (signaturesAfter [])).1 =
      if sig ∈ (_dqrng_RcppExport_validate sig []).2 then 1 else 0 := by
    rw [validate_answer, validate_state_after]
  rw [h1, h0, validate_from_empty]
  refine ⟨?_, ?_, rfl⟩
  · simp only [List.mem_cons, List.mem_singleton, List.not_mem_nil, or_false]
    split_ifs with h <;> simp [h]
  · split_ifs <;> simp

/-- C4, refuted as stated: the entry point `generate_seed_vectors` is not
among the callables that `_dqrng_RcppExport_registerCCallable` registers, the
signature string of `generateSeedVectors` is not accepted by the validator,
and no accepted signature is one of a function of that name. -/
theorem C4_generateSeedVectors_not_registered :
    "_dqrng_generateSeedVectors" ∉ registeredCallables.map Prod.fst ∧
    DL_FUNC._dqrng_generateSeedVectors ∉ registeredCallables.map Prod.snd ∧
    (_dqrng_RcppExport_validate "Rcpp::List(*generateSeedVectors)(int,int)" []).1 = 0 ∧
    "generateSeedVectors" ∉
      (_dqrng_RcppExport_validate "Rcpp::List(*generateSeedVectors)(int,int)" []).2.map
        signatureName := by
  decide

/-- C4, as amended: each entry point of the spec's table other than
`generate_seed_vectors`, that is `seed` (`dqset_seed`), `set_kind`
(`dqRNGkind`), `uniform` (`dqrunif`), `normal` (`dqrnorm`), `exponential`
(`dqrexp`), `rademacher` (`dqrrademacher`), `sample_int` (`dqsample_int`) and
`sample_num` (`dqsample_num`), is registered by
`_dqrng_RcppExport_registerCCallable` under the name `_dqrng_` followed by the
function name, with the address of its `_try` function, and has a signature
that the validator accepts on every call. -/
theorem C4_entry_points_registered_and_validated (name : String)
    (hname : name ∈ ["dqset_seed", "dqRNGkind", "dqrunif", "dqrnorm", "dqrexp",
      "dqrrademacher", "dqsample_int", "dqsample_num"]) :
    (∃ f, ("_dqrng_" ++ name, f) ∈ registeredCallables ∧
      f.symbol = "_dqrng_" ++ name ++ "_try") ∧
    (∃ sig, signatureName sig = name ∧
      ∀ earlier, (_dqrng_RcppExport_validate sig (signaturesAfter earlier)).1 ≠ 0) := by
  have hv : ∀ sig, sig ∈ (_dqrng_RcppExport_validate sig []).2 →
      ∀ earlier, (_dqrng_RcppExport_validate sig (signaturesAfter earlier)).1 ≠ 0 := by
    intro sig hsig earlier
    rw [validate_answer, validate_state_after, if_pos hsig]
    decide
  simp only [List.mem_cons, List.mem_singleton, List.not_mem_nil, or_false] at hname
  rcases hname with rfl | rfl | rfl | rfl | rfl | rfl | rfl | rfl
  · exact ⟨⟨DL_FUNC._dqrng_dqset_seed_try, by decide, by decide⟩,
      ⟨"void(*dqset_seed)(Rcpp::Nullable<Rcpp::IntegerVector>,Rcpp::Nullable<Rcpp::IntegerVector>)",
        by decide, hv _ (by decide)⟩⟩
  · exact ⟨⟨DL_FUNC._dqrng_dqRNGkind_try, by decide, by decide⟩,
      ⟨"void(*dqRNGkind)(std::string,const std::string&)", by decide, hv _ (by decide)⟩⟩
  · exact ⟨⟨DL_FUNC._dqrng_dqrunif_try, by decide, by decide⟩,
      ⟨"Rcpp::NumericVector(*dqrunif)(size_t,double,double)", by decide, hv _ (by decide)⟩⟩
  · exact ⟨⟨DL_FUNC._dqrng_dqrnorm_try, by decide, by decide⟩,
      ⟨"Rcpp::NumericVector(*dqrnorm)(size_t,double,double)", by decide, hv _ (by decide)⟩⟩
  · exact ⟨⟨DL_FUNC._dqrng_dqrexp_try, by decide, by decide⟩,
      ⟨"Rcpp::NumericVector(*dqrexp)(size_t,double)", by decide, hv _ (by decide)⟩⟩
  · exact ⟨⟨DL_FUNC._dqrng_dqrrademacher_try, by decide, by decide⟩,
      ⟨"Rcpp::IntegerVector(*dqrrademacher)(size_t)", by decide, hv _ (by decide)⟩⟩
  · exact ⟨⟨DL_FUNC._dqrng_dqsample_int_try, by decide, by decide⟩,
      ⟨"Rcpp::IntegerVector(*dqsample_int)(int,int,bool,Rcpp::Nullable<Rcpp::NumericVector>,int)",
        by decide, hv _ (by decide)⟩⟩
  · exact ⟨⟨DL_FUNC._dqrng_dqsample_num_try, by decide, by decide⟩,
      ⟨"Rcpp::NumericVector(*dqsample_num)(double,double,bool,Rcpp::Nullable<Rcpp::NumericVector>,int)",
        by decide, hv _ (by decide)⟩⟩

/-- C4 as amended, on an instance: the entry point `normal`. -/
theorem C4_entry_points_registered_and_validated_witness :
    "dqrnorm" ∈ ["dqset_seed", "dqRNGkind", "dqrunif", "dqrnorm", "dqrexp",
      "dqrrademacher", "dqsample_int", "dqsample_num"] ∧
    ((∃ f, ("_dqrng_" ++ "dqrnorm", f) ∈ registeredCallables ∧
      f.symbol = "_dqrng_" ++ "dqrnorm" ++ "_try") ∧
    (∃ sig, signatureName sig = "dqrnorm" ∧
      ∀ earlier, (_dqrng_RcppExport_validate sig (signaturesAfter earlier)).1 ≠ 0)) :=
  ⟨by decide, C4_entry_points_registered_and_validated "dqrnorm" (by decide)⟩

/-! ## The two sampling entry points -/

theorem Body.call_eq {σ α : Type} (f : Body σ α) (wrap : α → SEXP) (s : σ) :
    Body.call f wrap s = ((f s).1.map wrap, (f s).2) := by
  unfold Body.call
  rcases f s with ⟨r | r, s1⟩ <;> rfl

/-- C5: with `replace` converted to a boolean, `probs` to an optional real
vector and `offset` to a machine integer in both, `_dqrng_dqsample_int_try`
converts `m` and `n` to machine integers, calls `dqsample_int` with the five
converted values in the order `m, n, replace, probs, offset` and returns what
it returns wrapped as an integer vector, and `_dqrng_dqsample_num_try` does
the same with `m` and `n` converted to reals, `dqsample_num` and a real
vector; the state is the one the core function leaves. -/
theorem C5_sampling_entry_points_forward_arguments {σ D : Type} (rc : Rcpp D) (core : Core σ D)
    (mSEXP nSEXP replaceSEXP probsSEXP offsetSEXP : SEXP) (s : σ)
    (replace : Bool) (probs : Option (List D)) (offset : Int)
    (hreplace : rc.as_bool replaceSEXP = .ok replace)
    (hprobs : rc.as_Nullable_NumericVector probsSEXP = .ok probs)
    (hoffset : rc.as_int offsetSEXP = .ok offset) :
    (∀ m n : Int, rc.as_int mSEXP = .ok m → rc.as_int nSEXP = .ok n →
      _dqrng_dqsample_int_try rc core mSEXP nSEXP replaceSEXP probsSEXP offsetSEXP s =
        (END_RCPP_RETURN_ERROR rc
            ((core.dqsample_int m n replace probs offset s).1.map rc.wrap_IntegerVector),
          (core.dqsample_int m n replace probs offset s).2)) ∧
    (∀ m n : D, rc.as_double mSEXP = .ok m → rc.as_double nSEXP = .ok n →
      _dqrng_dqsample_num_try rc core mSEXP nSEXP replaceSEXP probsSEXP offsetSEXP s =
        (END_RCPP_RETURN_ERROR rc
            ((core.dqsample_num m n replace probs offset s).1.map rc.wrap_NumericVector),
          (core.dqsample_num m n replace probs offset s).2)) := by
  constructor
  · intro m n hm hn
    simp only [_dqrng_dqsample_int_try, tryBody, Body.arg, hm, hn, hreplace, hprobs, hoffset,
      Body.call_eq]
  · intro m n hm hn
    simp only [_dqrng_dqsample_num_try, tryBody, Body.arg, hm, hn, hreplace, hprobs, hoffset,
      Body.call_eq]

/-- C5, on an instance: the core of the example returns its five arguments,
and both `_try` functions return them in the order 5, 3, 0, 0, 1. -/
theorem C5_sampling_entry_points_forward_arguments_witness :
    (Example.rcpp.as_bool (Example.num 0) = .ok false ∧
      Example.rcpp.as_Nullable_NumericVector R_NilValue = .ok none ∧
      Example.rcpp.as_int (Example.num 1) = .ok 1) ∧
    (_dqrng_dqsample_int_try Example.rcpp Example.core (Example.num 5) (Example.num 3)
        (Example.num 0) R_NilValue (Example.num 1) Example.world).1 = Example.num 53001 ∧
    (_dqrng_dqsample_num_try Example.rcpp Example.core (Example.num 5) (Example.num 3)
        (Example.num 0) R_NilValue (Example.num 1) Example.world).1 = Example.num 53001 :=
  ⟨⟨rfl, rfl, rfl⟩,
    (congrArg Prod.fst
      ((C5_sampling_entry_points_forward_arguments Example.rcpp Example.core (Example.num 5)
        (Example.num 3) (Example.num 0) R_NilValue (Example.num 1) Example.world false none 1
        rfl rfl rfl).1 5 3 rfl rfl)).trans rfl,
    (congrArg Prod.fst
      ((C5_sampling_entry_points_forward_arguments Example.rcpp Example.core (Example.num 5)
        (Example.num 3) (Example.num 0) R_NilValue (Example.num 1) Example.world false none 1
        rfl rfl rfl).2 5 3 rfl rfl)).trans rfl⟩

/-! ## The host RNG state -/

/-- C10: the rows of `CallEntries` before the terminating row, which is the
last one and is `{NULL, NULL, 0}`, have pairwise distinct names; each row
points to the exported function whose C name is the name of the row, and a
call of that function is well formed with exactly as many `SEXP` arguments as
the row declares; the names and the counts are, in order, those listed; and
every exported routine has a row. -/
theorem C10_CallEntries_consistent_with_wrappers {σ D : Type} (h : Host σ) (rc : Rcpp D)
    (core : Core σ D) :
    CallEntries = rowsBeforeSentinel CallEntries ++ [⟨none, none, 0⟩] ∧
    ((rowsBeforeSentinel CallEntries).map fun e => e.name).Nodup ∧
    (∀ e ∈ rowsBeforeSentinel CallEntries, ∃ f, e.fun_ = some f ∧ e.name = some f.symbol ∧
      ∀ args, (callRoutine h rc core f args).isSome ↔ args.length = e.numArgs) ∧
    ((rowsBeforeSentinel CallEntries).map fun e => (e.name, e.numArgs)) =
      [ (some "_dqrng_dqset_seed", 2), (some "_dqrng_dqRNGkind", 2),
        (some "_dqrng_dqrunif", 3), (some "_dqrng_runif", 2),
        (some "_dqrng_dqrnorm", 3), (some "_dqrng_rnorm", 2),
        (some "_dqrng_dqrexp", 2), (some "_dqrng_rexp", 1),
        (some "_dqrng_dqrrademacher", 1), (some "_dqrng_dqsample_int", 5),
        (some "_dqrng_dqsample_num", 5), (some "_dqrng_generateSeedVectors", 2),
        (some "_dqrng_RcppExport_registerCCallable", 0) ] ∧
    (∀ f args, (callRoutine h rc core f args).isSome →
      some f ∈ (rowsBeforeSentinel CallEntries).map fun e => e.fun_) := by
  refine ⟨by decide, by decide, ?_, by decide, ?_⟩
  · intro e he
    have hrows : rowsBeforeSentinel CallEntries = CallEntries.take 13 := by decide
    rw [hrows] at he
    simp only [CallEntries, List.take_succ_cons, List.take_zero, List.mem_cons,
      List.not_mem_nil, or_false] at he
    rcases he with rfl | rfl | rfl | rfl | rfl | rfl | rfl | rfl | rfl | rfl | rfl | rfl | rfl
    all_goals refine ⟨_, rfl, rfl, fun args => ?_⟩
    all_goals
      rcases args with _ | ⟨a, _ | ⟨b, _ | ⟨c, _ | ⟨d, _ | ⟨e, _ | ⟨f, t⟩⟩⟩⟩⟩⟩ <;>
        simp [callRoutine]
  · intro f args hsome
    cases f <;>
      first
        | decide
        | (exfalso
           rcases args with _ | ⟨a, _ | ⟨b, _ | ⟨c, _ | ⟨d, _ | ⟨e, _ | ⟨f, t⟩⟩⟩⟩⟩⟩ <;>
             simp [callRoutine] at hsome)

/-! ## The core as the specification describes it, behind the binding layer -/

namespace Spec

theorem thrown_state {ε α : Type} (r : Result ε α) : (thrown r).2 = r.2 := rfl

theorem seed_engine {ε : Type} (env : Env ε) (material : List Int) (stream : Option (List Int))
    (st : State ε) (hacc : stream = none ∨ env.engine.supports_streams = true) :
    (seed env (some material) stream st).2.engine = env.engine.seed material stream := by
  have hc : (stream.isSome && !env.engine.supports_streams) = false := by
    rcases hacc with h | h
    · simp [h]
    · simp [h]
  simp [seed, hc]

theorem uniform_values {ε : Type} (env : Env ε) (n : Nat) (min max : ℚ) (st st2 : State ε)
    (he : st.engine = st2.engine) :
    (uniform env n min max st).1 = (uniform env n min max st2).1 := by
  unfold uniform
  rw [he]

end Spec

theorem dqset_seed_try_engine {ε : Type} (rc : Rcpp ℚ) (env : Spec.Env ε)
    (rest : Core (Spec.State ε) ℚ) (seedSEXP streamSEXP : SEXP) (s : List Int)
    (stream : Option (List Int)) (st : Spec.State ε)
    (hseed : rc.as_Nullable_IntegerVector seedSEXP = .ok (some s))
    (hstream : rc.as_Nullable_IntegerVector streamSEXP = .ok stream)
    (hacc : stream = none ∨ env.engine.supports_streams = true) :
    (_dqrng_dqset_seed_try rc (Spec.core env rest) seedSEXP streamSEXP st).2.engine =
      env.engine.seed s stream := by
  simp only [_dqrng_dqset_seed_try, tryBody, Body.arg, hseed, hstream, Body.call_eq, Spec.core,
    Spec.thrown_state]
  exact Spec.seed_engine env s stream st hacc

theorem dqrunif_try_value {ε : Type} (rc : Rcpp ℚ) (env : Spec.Env ε)
    (rest : Core (Spec.State ε) ℚ) (nSEXP minSEXP maxSEXP : SEXP) (st st2 : Spec.State ε)
    (he : st.engine = st2.engine) :
    (_dqrng_dqrunif_try rc (Spec.core env rest) nSEXP minSEXP maxSEXP st).1 =
      (_dqrng_dqrunif_try rc (Spec.core env rest) nSEXP minSEXP maxSEXP st2).1 := by
  simp only [_dqrng_dqrunif_try, tryBody, Body.arg]
  cases rc.as_size_t nSEXP with
  | error e => rfl
  | ok n =>
    cases rc.as_double minSEXP with
    | error e => rfl
    | ok min =>
      cases rc.as_double maxSEXP with
      | error e => rfl
      | ok max =>
        simp only [Body.call_eq, Spec.core, Spec.thrown, Spec.uniform_values env n min max st st2 he]

/-- C6: through the binding layer, over the core as the spec describes it: for
every seed material `s` (with any stream id the engine family accepts) and
whatever the three arguments of `dqrunif` are, in any state of the engine, the
call of `_dqrng_dqset_seed` followed by the call of `_dqrng_dqrunif`, made a
second time right after the first, does the same as the first time: the two
traces of `_dqrng_dqrunif` and the values they return are equal; they are
also the ones the two calls give from any other earlier state; and when the
three arguments convert to `k`, `min` and `max` the value returned is the
wrapped vector of the `k` words of the engine freshly seeded with `s` and the
stream id, scaled into the interval. -/
theorem C6_reseeding_reproduces_the_draws {ε : Type} (h : Host (Spec.State ε)) (rc : Rcpp ℚ)
    (env : Spec.Env ε) (rest : Core (Spec.State ε) ℚ)
    (seedSEXP streamSEXP nSEXP minSEXP maxSEXP : SEXP) (s : List Int)
    (stream : Option (List Int)) (st other : Spec.State ε)
    (hseed : rc.as_Nullable_IntegerVector seedSEXP = .ok (some s))
    (hstream : rc.as_Nullable_IntegerVector streamSEXP = .ok stream)
    (haccepted : stream = none ∨ env.engine.supports_streams = true) :
    (_dqrng_dqrunif h rc (Spec.core env rest) nSEXP minSEXP maxSEXP
        (_dqrng_dqset_seed h rc (Spec.core env rest) seedSEXP streamSEXP st).2).1 =
      (_dqrng_dqrunif h rc (Spec.core env rest) nSEXP minSEXP maxSEXP
        (_dqrng_dqset_seed h rc (Spec.core env rest) seedSEXP streamSEXP
          (_dqrng_dqrunif h rc (Spec.core env rest) nSEXP minSEXP maxSEXP
            (_dqrng_dqset_seed h rc (Spec.core env rest) seedSEXP streamSEXP st).2).2).2).1 ∧
    (_dqrng_dqrunif_try rc (Spec.core env rest) nSEXP minSEXP maxSEXP
        (_dqrng_dqset_seed_try rc (Spec.core env rest) seedSEXP streamSEXP st).2).1 =
      (_dqrng_dqrunif_try rc (Spec.core env rest) nSEXP minSEXP maxSEXP
        (_dqrng_dqset_seed_try rc (Spec.core env rest) seedSEXP streamSEXP
          (_dqrng_dqrunif_try rc (Spec.core env rest) nSEXP minSEXP maxSEXP
            (_dqrng_dqset_seed_try rc (Spec.core env rest) seedSEXP streamSEXP st).2).2).2).1 ∧
    (_dqrng_dqrunif_try rc (Spec.core env rest) nSEXP minSEXP maxSEXP
        (_dqrng_dqset_seed_try rc (Spec.core env rest) seedSEXP streamSEXP st).2).1 =
      (_dqrng_dqrunif_try rc (Spec.core env rest) nSEXP minSEXP maxSEXP
        (_dqrng_dqset_seed_try rc (Spec.core env rest) seedSEXP streamSEXP other).2).1 ∧
    (∀ k min max, rc.as_size_t nSEXP = .ok k → rc.as_double minSEXP = .ok min →
      rc.as_double maxSEXP = .ok max →
      (_dqrng_dqrunif_try rc (Spec.core env rest) nSEXP minSEXP maxSEXP
          (_dqrng_dqset_seed_try rc (Spec.core env rest) seedSEXP streamSEXP st).2).1 =
        rc.wrap_NumericVector
          ((Spec.drawWords env.engine k (env.engine.seed s stream)).1.map fun (w : Nat) =>
            min + (max - min) * ((w : ℚ) / (Spec.wordRange : ℚ)))) := by
  have key : ∀ a b : Spec.State ε,
      (_dqrng_dqrunif_try rc (Spec.core env rest) nSEXP minSEXP maxSEXP
          (_dqrng_dqset_seed_try rc (Spec.core env rest) seedSEXP streamSEXP a).2).1 =
        (_dqrng_dqrunif_try rc (Spec.core env rest) nSEXP minSEXP maxSEXP
          (_dqrng_dqset_seed_try rc (Spec.core env rest) seedSEXP streamSEXP b).2).1 := by
    intro a b
    apply dqrunif_try_value
    rw [dqset_seed_try_engine rc env rest seedSEXP streamSEXP s stream a hseed hstream haccepted,
      dqset_seed_try_engine rc env rest seedSEXP streamSEXP s stream b hseed hstream haccepted]
  refine ⟨?_, key _ _, key _ _, ?_⟩
  · simp only [_dqrng_dqrunif, _dqrng_dqset_seed, exported]
    rw [key st _]
  · intro k min max hk hmin hmax
    have he := dqset_seed_try_engine rc env rest seedSEXP streamSEXP s stream st hseed hstream
      haccepted
    generalize (_dqrng_dqset_seed_try rc (Spec.core env rest) seedSEXP streamSEXP st).2 = st1
      at he
    simp only [_dqrng_dqrunif_try, tryBody, Body.arg, hk, hmin, hmax, Body.call_eq, Spec.core,
      Spec.thrown, Spec.uniform, END_RCPP_RETURN_ERROR, Except.map, he]

/-- C6, on an instance: the linear congruential engine behind the binding
layer, seeded with the material 5 from two different states. -/
theorem C6_reseeding_reproduces_the_draws_witness :
    (Example.rcppQ.as_Nullable_IntegerVector (Example.num 5) = .ok (some [5]) ∧
      Example.rcppQ.as_Nullable_IntegerVector R_NilValue = .ok none ∧
      ((none : Option (List Int)) = none ∨
        (Example.env false).engine.supports_streams = true)) ∧
    (_dqrng_dqrunif_try Example.rcppQ (Spec.core (Example.env false) Example.rest)
        (Example.num 3) (Example.num 0) (Example.num 1)
        (_dqrng_dqset_seed_try Example.rcppQ (Spec.core (Example.env false) Example.rest)
          (Example.num 5) R_NilValue ⟨99, 0⟩).2).1 =
      (_dqrng_dqrunif_try Example.rcppQ (Spec.core (Example.env false) Example.rest)
        (Example.num 3) (Example.num 0) (Example.num 1)
        (_dqrng_dqset_seed_try Example.rcppQ (Spec.core (Example.env false) Example.rest)
          (Example.num 5) R_NilValue ⟨7, 3⟩).2).1 :=
  ⟨⟨rfl, rfl, Or.inl rfl⟩,
    (C6_reseeding_reproduces_the_draws
      { onintrReturns := false, resumeJumpReturns := false, errorReturns := false,
        enterRNGScope := id, exitRNGScope := id }
      Example.rcppQ (Example.env false) Example.rest (Example.num 5) R_NilValue
      (Example.num 3) (Example.num 0) (Example.num 1) [5] none ⟨99, 0⟩ ⟨7, 3⟩
      rfl rfl (Or.inl rfl)).2.2.1⟩

namespace Spec

end Spec

/-- C8, refuted as stated: with the roles of the table of §6 (population `m`,
sample size `n`) the request `sample_int(5, 3, replace = false)` is a valid
one: the core returns the three values 3, 4 and 1, and
`_dqrng_dqsample_int_try` returns them wrapped, not an error object. -/
theorem C8_sample_of_three_out_of_five_is_valid_under_table_roles :
    ((Spec.core (Example.env true) Example.rest).dqsample_int 5 3 false none 0 ⟨2, 0⟩).1 =
      .ok [3, 4, 1] ∧
    (_dqrng_dqsample_int_try Example.rcppQ (Spec.core (Example.env true) Example.rest)
        (Example.num 5) (Example.num 3) (Example.num 0) R_NilValue (Example.num 0) ⟨2, 0⟩).1 =
      Example.rcppQ.wrap_IntegerVector [3, 4, 1] ∧
    Rf_inherits (_dqrng_dqsample_int_try Example.rcppQ
        (Spec.core (Example.env true) Example.rest)
        (Example.num 5) (Example.num 3) (Example.num 0) R_NilValue (Example.num 0) ⟨2, 0⟩).1
      "try-error" = false :=
  ⟨rfl, rfl, rfl⟩

theorem Spec.sample_int_too_large {ε : Type} (env : Spec.Env ε) (m n : Nat)
    (probs : Option (List ℚ)) (offset : Int) (st : Spec.State ε)
    (hlt : Spec.population env m n < Spec.sampleSize env m n) :
    Spec.sample_int env m n false probs offset st = (.error .domain, st) := by
  simp [Spec.sample_int, hlt]

theorem Spec.sample_int_weights_length {ε : Type} (env : Spec.Env ε) (m n : Nat)
    (replace : Bool) (w : List ℚ) (offset : Int) (st : Spec.State ε)
    (hw : w.length ≠ Spec.population env m n) :
    Spec.sample_int env m n replace (some w) offset st = (.error .domain, st) := by
  unfold Spec.sample_int
  by_cases hc : (!replace && decide (Spec.population env m n < Spec.sampleSize env m n)) = true
  · simp [hc]
  · simp [hc, hw]

theorem dqsample_int_try_domain_error {ε : Type} (rc : Rcpp ℚ) (env : Spec.Env ε)
    (rest : Core (Spec.State ε) ℚ) (mSEXP nSEXP replaceSEXP probsSEXP offsetSEXP : SEXP)
    (m n : Nat) (replace : Bool) (probs : Option (List ℚ)) (offset : Int) (st : Spec.State ε)
    (hm : rc.as_int mSEXP = .ok (Int.ofNat m)) (hn : rc.as_int nSEXP = .ok (Int.ofNat n))
    (hreplace : rc.as_bool replaceSEXP = .ok replace)
    (hprobs : rc.as_Nullable_NumericVector probsSEXP = .ok probs)
    (hoffset : rc.as_int offsetSEXP = .ok offset)
    (herr : Spec.sample_int env m n replace probs offset st = (.error .domain, st)) :
    _dqrng_dqsample_int_try rc (Spec.core env rest) mSEXP nSEXP replaceSEXP probsSEXP
        offsetSEXP st =
      (rc.exception_to_try_error "domain error", st) := by
  have hneg : ¬ ((Int.ofNat m) < 0 ∨ (Int.ofNat n) < 0) := by
    simp only [Int.ofNat_eq_coe]; omega
  have hm2 : (Int.ofNat m).toNat = m := rfl
  have hn2 : (Int.ofNat n).toNat = n := rfl
  simp only [_dqrng_dqsample_int_try, tryBody, Body.arg, hm, hn, hreplace, hprobs, hoffset,
    Body.call_eq, Spec.core, hneg, if_false, hm2, hn2, herr, Spec.thrown, Except.map,
    END_RCPP_RETURN_ERROR, Spec.ErrorKind.thrown]

/-- C8, as amended: through the `_try` functions, over the core as the spec
describes it, an invalid request returns no value: the core throws a domain
error, the `_try` function returns the error object made of it, and the state
stays as it was. That holds for a request without replacement whose sample
size exceeds the population, which is `sample_int(5, 3, replace = false)`
with the roles of §3, §4.4 and §8 and `sample_int(3, 5, replace = false)` with
the roles of the table of §6; for `normal` with `sd < 0`, so for
`normal(3, 0, -1)`; and for a weight vector whose length is not the
population size. -/
theorem C8_invalid_requests_fail_with_domain_error {ε : Type} (rc : Rcpp ℚ) (env : Spec.Env ε)
    (rest : Core (Spec.State ε) ℚ) (st : Spec.State ε) :
    (∀ mSEXP nSEXP replaceSEXP probsSEXP offsetSEXP (m n : Nat) probs offset,
      rc.as_int mSEXP = .ok (Int.ofNat m) → rc.as_int nSEXP = .ok (Int.ofNat n) →
      rc.as_bool replaceSEXP = .ok false →
      rc.as_Nullable_NumericVector probsSEXP = .ok probs →
      rc.as_int offsetSEXP = .ok offset →
      Spec.population env m n < Spec.sampleSize env m n →
      _dqrng_dqsample_int_try rc (Spec.core env rest) mSEXP nSEXP replaceSEXP probsSEXP
          offsetSEXP st =
        (rc.exception_to_try_error "domain error", st)) ∧
    (env.populationFirst = false → Spec.population env 5 3 < Spec.sampleSize env 5 3) ∧
    (env.populationFirst = true → Spec.population env 3 5 < Spec.sampleSize env 3 5) ∧
    (∀ nSEXP meanSEXP sdSEXP k mean sd,
      rc.as_size_t nSEXP = .ok k → rc.as_double meanSEXP = .ok mean →
      rc.as_double sdSEXP = .ok sd → sd < 0 →
      _dqrng_dqrnorm_try rc (Spec.core env rest) nSEXP meanSEXP sdSEXP st =
        (rc.exception_to_try_error "domain error", st)) ∧
    (∀ nSEXP meanSEXP sdSEXP,
      rc.as_size_t nSEXP = .ok 3 → rc.as_double meanSEXP = .ok 0 →
      rc.as_double sdSEXP = .ok (-1) →
      _dqrng_dqrnorm_try rc (Spec.core env rest) nSEXP meanSEXP sdSEXP st =
        (rc.exception_to_try_error "domain error", st)) ∧
    (∀ mSEXP nSEXP replaceSEXP probsSEXP offsetSEXP (m n : Nat) replace w offset,
      rc.as_int mSEXP = .ok (Int.ofNat m) → rc.as_int nSEXP = .ok (Int.ofNat n) →
      rc.as_bool replaceSEXP = .ok replace →
      rc.as_Nullable_NumericVector probsSEXP = .ok (some w) →
      rc.as_int offsetSEXP = .ok offset →
      w.length ≠ Spec.population env m n →
      _dqrng_dqsample_int_try rc (Spec.core env rest) mSEXP nSEXP replaceSEXP probsSEXP
          offsetSEXP st =
        (rc.exception_to_try_error "domain error", st)) := by
  have hnormal : ∀ nSEXP meanSEXP sdSEXP k mean sd,
      rc.as_size_t nSEXP = .ok k → rc.as_double meanSEXP = .ok mean →
      rc.as_double sdSEXP = .ok sd → sd < 0 →
      _dqrng_dqrnorm_try rc (Spec.core env rest) nSEXP meanSEXP sdSEXP st =
        (rc.exception_to_try_error "domain error", st) := by
    intro nSEXP meanSEXP sdSEXP k mean sd hk hmean hsd hneg
    simp [_dqrng_dqrnorm_try, tryBody, Body.arg, hk, hmean, hsd, Body.call_eq, Spec.core,
      Spec.thrown, Spec.normal, hneg, Except.map, END_RCPP_RETURN_ERROR,
      Spec.ErrorKind.thrown]
  refine ⟨?_, ?_, ?_, hnormal, ?_, ?_⟩
  · intro mSEXP nSEXP replaceSEXP probsSEXP offsetSEXP m n probs offset hm hn hr hp ho hlt
    exact dqsample_int_try_domain_error rc env rest mSEXP nSEXP replaceSEXP probsSEXP offsetSEXP
      m n false probs offset st hm hn hr hp ho
      (Spec.sample_int_too_large env m n probs offset st hlt)
  · intro hp
    simp [Spec.population, Spec.sampleSize, hp]
  · intro hp
    simp [Spec.population, Spec.sampleSize, hp]
  · intro nSEXP meanSEXP sdSEXP hk hmean hsd
    exact hnormal nSEXP meanSEXP sdSEXP 3 0 (-1) hk hmean hsd (by norm_num)
  · intro mSEXP nSEXP replaceSEXP probsSEXP offsetSEXP m n replace w offset hm hn hr hp ho hw
    exact dqsample_int_try_domain_error rc env rest mSEXP nSEXP replaceSEXP probsSEXP offsetSEXP
      m n replace (some w) offset st hm hn hr hp ho
      (Spec.sample_int_weights_length env m n replace w offset st hw)

/-- C8 as amended, on an instance: `normal(3, 0, -1)` behind the binding
layer returns the error object of the domain error and leaves the state. -/
theorem C8_invalid_requests_fail_with_domain_error_witness :
    (Example.rcppQ.as_size_t (Example.num 3) = .ok 3 ∧
      Example.rcppQ.as_double (Example.num 0) = .ok 0 ∧
      Example.rcppQ.as_double (Example.minus 1) = .ok (-1)) ∧
    _dqrng_dqrnorm_try Example.rcppQ (Spec.core (Example.env false) Example.rest)
        (Example.num 3) (Example.num 0) (Example.minus 1) ⟨2, 0⟩ =
      (Example.rcppQ.exception_to_try_error "domain error", ⟨2, 0⟩) :=
  have h0 : Example.rcppQ.as_double (Example.num 0) = .ok 0 := by
    simp [Example.rcppQ, Example.num, Except.map]
  have h1 : Example.rcppQ.as_double (Example.minus 1) = .ok (-1) := by
    simp [Example.rcppQ, Example.minus]
  ⟨⟨rfl, h0, h1⟩,
    (C8_invalid_requests_fail_with_domain_error Example.rcppQ (Example.env false) Example.rest
      ⟨2, 0⟩).2.2.2.2.1 (Example.num 3) (Example.num 0) (Example.minus 1) rfl h0 h1⟩

end Dqrng
